import Mathlib

/-!
Shallow embedding of the `n8n-nodes-starter` DocRouter nodes
(`DocRouterDocument`, `DocRouterTag`, `DocRouterSchema`, `DocRouterAccount`,
`DocRouterLLM`, `DocRouter`, `DocRouterKnowledgeBase`) and proofs about their
`execute` routines.

Modelling conventions:
* JavaScript JSON values are the inductive `Json` (numbers as `Rat`).
* The n8n host services (`helpers.httpRequestWithAuthentication`,
  `JSON.parse`, `continueOnFail`) are an explicit environment `Env`:
  `http` maps a request to the remote outcome (`Except` models a thrown
  transport error), `parseJson` returns `none` exactly when `JSON.parse`
  would throw on that text, and `continueOnFail` is the host toggle.
* Each `execute` returns the ordered trace of issued HTTP requests together
  with either the produced item array or the error that the call threw.
* `getNodeParameter(name, itemIndex)` is modelled by a per-item parameter
  record `getP : Nat -> Params`; `this.getNode().parameters` (the raw,
  possibly-absent parameter bag used by the Account and KnowledgeBase nodes)
  is a separate record of `Option` fields.
* Binary attachments store the base64 text of their bytes directly, so
  `getBinaryDataBuffer` followed by `toString('base64')` is field access.
-/

/-- JavaScript JSON value (numbers modelled as rationals). -/
inductive Json where
  | str : String → Json
  | num : Rat → Json
  | bool : Bool → Json
  | null : Json
  | arr : List Json → Json
  | obj : List (String × Json) → Json

/-- Property access `j?.k` on a JSON value: a field of an object, else `undefined`. -/
def Json.getField : Json → String → Option Json
  | Json.obj fs, k => fs.lookup k
  | _, _ => none

/-- `Object.keys(x).length` for the values this code feeds it (objects, and the
JS quirk that arrays/strings enumerate their indices; other primitives have no
own keys). -/
def Json.keysCount : Json → Nat
  | Json.obj fs => fs.length
  | Json.arr xs => xs.length
  | Json.str s => s.length
  | _ => 0

/-- JS `String.prototype.jsTrim` (kernel-reducible implementation: strip
leading and trailing whitespace). -/
def String.jsTrim (s : String) : String :=
  String.mk ((s.data.dropWhile Char.isWhitespace).reverse.dropWhile Char.isWhitespace).reverse

/-- JS `str.split(',')` (kernel-reducible implementation). -/
def String.jsSplitComma (s : String) : List String :=
  (s.data.splitOn ',').map String.mk

/-- `a || b` on strings (JS falsiness of the empty string). -/
def strOr (s d : String) : String := if s = "" then d else s

/-- An outbound HTTP request as assembled by the nodes. -/
structure HttpRequest where
  method : String
  baseURL : String
  url : String
  qs : List (String × Json)
  body : Option Json

/-- Error classes of the spec taxonomy; each throw site of the source is
mapped to the class the spec assigns to it. -/
inductive ErrKind where
  | validation
  | missingInput
  | configuration
  | unsupportedOperation
  | transport
deriving DecidableEq

/-- A thrown error: its class, its message, and the `itemIndex` carried in its
`context` (either set at the throw site or added by the re-throw handler). -/
structure ExecError where
  kind : ErrKind
  message : String
  itemIndex : Option Nat

/-- The host environment a node runs in. -/
structure Env where
  http : HttpRequest → Except String Json
  parseJson : String → Option Json
  continueOnFail : Bool

/-- One element of the returned item array: its `json` payload, its
`pairedItem` index, and the error attached when continue-on-fail captured a
failure for this entry. -/
structure Entry where
  json : Json
  pairedItem : Nat
  err : Option ExecError

/-- A free-form JSON parameter as n8n delivers it: either literal JSON text or
an already-parsed object (`typeof x === 'string'` discriminates in source). -/
inductive JsParam where
  | text : String → JsParam
  | obj : Json → JsParam

/-- The error thrown by `JSON.parse` on malformed text (a `SyntaxError`,
classified as a validation error by the spec: bad input before any request). -/
def jsonSyntaxError : ExecError :=
  { kind := ErrKind.validation, message := "Malformed JSON", itemIndex := none }

/-- `typeof x === 'string' ? JSON.parse(x || fallback) : x`. -/
def parseJsParam (env : Env) (p : JsParam) (fallback : String) : Except ExecError Json :=
  match p with
  | JsParam.text s =>
      match env.parseJson (strOr s fallback) with
      | some j => Except.ok j
      | none => Except.error jsonSyntaxError
  | JsParam.obj j => Except.ok j

/-- Result of processing one item: the requests it issued (in order) and the
response it produced or the error it threw. -/
abbrev StepResult := List HttpRequest × Except ExecError Json

/-- Issue a request through the environment; a rejected promise of the HTTP
helper is a thrown transport error. -/
def httpCall (env : Env) (req : HttpRequest) : StepResult :=
  ([req], match env.http req with
    | Except.ok j => Except.ok j
    | Except.error m => Except.error { kind := ErrKind.transport, message := m, itemIndex := none })

/-- `response ?? {}` at the push site. -/
def coalesceNull (j : Json) : Json :=
  match j with
  | Json.null => Json.obj []
  | _ => j

/-- The `{ error: message }` payload pushed for a captured per-item failure. -/
def errJson (e : ExecError) : Json := Json.obj [("error", Json.str e.message)]

/-- Annotate a re-thrown error with the offending item index
(`error.context = { ...context, itemIndex }`). -/
def setIdx (i : Nat) (e : ExecError) : ExecError :=
  { e with itemIndex := some i }

/-- The per-item loop shared by every node: process indices `i, i+1, ...`
(`n` items remaining). On success push a result entry; on failure either push
an error entry (continue-on-fail) or abort the whole call, annotating the
error with the item index when the node's catch block does (`ann`). -/
def runItems (cof ann : Bool) (step : Nat → StepResult) :
    Nat → Nat → List HttpRequest × Except ExecError (List Entry)
  | _, 0 => ([], Except.ok [])
  | i, n + 1 =>
    match step i with
    | (reqs, Except.ok j) =>
        match runItems cof ann step (i + 1) n with
        | (reqs2, Except.ok es) =>
            (reqs ++ reqs2, Except.ok ({ json := coalesceNull j, pairedItem := i, err := none } :: es))
        | (reqs2, Except.error e) => (reqs ++ reqs2, Except.error e)
    | (reqs, Except.error e) =>
        if cof then
          match runItems cof ann step (i + 1) n with
          | (reqs2, Except.ok es) =>
              (reqs ++ reqs2, Except.ok ({ json := errJson e, pairedItem := i, err := some e } :: es))
          | (reqs2, Except.error e2) => (reqs ++ reqs2, Except.error e2)
        else (reqs, Except.error (if ann then setIdx i e else e))

/-- The requests the loop issues for items `i, ..., i+n-1` when no abort
happens before the end. -/
def reqsOf (step : Nat → StepResult) : Nat → Nat → List HttpRequest
  | _, 0 => []
  | i, n + 1 => (step i).1 ++ reqsOf step (i + 1) n

/-- The entry the loop pushes for item `j` under continue-on-fail. -/
def entryAt (step : Nat → StepResult) (j : Nat) : Entry :=
  match (step j).2 with
  | Except.ok v => { json := coalesceNull v, pairedItem := j, err := none }
  | Except.error e => { json := errJson e, pairedItem := j, err := some e }

/-- The entries the loop produces for items `i, ..., i+n-1` under
continue-on-fail. -/
def entriesOf (step : Nat → StepResult) : Nat → Nat → List Entry
  | _, 0 => []
  | i, n + 1 => entryAt step i :: entriesOf step (i + 1) n

/-- A batch-level operation: run the action once; on failure either push one
error entry at position 0 (continue-on-fail) or re-throw unannotated. -/
def runOnce (cof : Bool) (act : StepResult) :
    List HttpRequest × Except ExecError (List Entry) :=
  match act with
  | (reqs, Except.ok j) =>
      (reqs, Except.ok [{ json := coalesceNull j, pairedItem := 0, err := none }])
  | (reqs, Except.error e) =>
      if cof then (reqs, Except.ok [{ json := errJson e, pairedItem := 0, err := some e }])
      else (reqs, Except.error e)

/-- Credential object supplied by the host. -/
structure Credential where
  baseUrl : Option String
  apiToken : String

/-- `(credentials?.baseUrl as string)?.jsTrim() || 'https://app.docrouter.ai/fastapi'`. -/
def resolveBaseUrl (c : Credential) : String :=
  strOr ((c.baseUrl.getD "").jsTrim) "https://app.docrouter.ai/fastapi"

/-- URL of the organization lookup endpoint. -/
def tokenOrgUrl : String := "/v0/account/token/organization"

/-- An organization-scoped resource URL built by template interpolation
`/v0/orgs/dollar-orgId + suffix`. -/
def orgUrl (orgId suffix : String) : String := "/v0/orgs/" ++ orgId ++ suffix

/-- The organization lookup request issued before any item is processed. -/
def orgLookupReq (baseUrl apiToken : String) : HttpRequest :=
  { method := "GET", baseURL := baseUrl, url := tokenOrgUrl,
    qs := [("token", Json.str apiToken)], body := none }

/-- `tokenInfoResponse?.organization_id as string` followed by the JS
truthiness test `if (!organizationId)` (the lookup endpoint returns
`{ organization_id }`, a string). -/
def orgIdFromResponse (j : Json) : Option String :=
  match j.getField "organization_id" with
  | some (Json.str s) => if s = "" then none else some s
  | _ => none

/-- Shared preamble of the five organization-scoped nodes: resolve the base
URL, exchange the token for an organization id, fail with a configuration
error (message per node) when none comes back, otherwise run the rest of the
invocation with the resolved context. -/
def withOrgContext (env : Env) (cred : Credential) (noOrgMsg : String)
    (k : String → String → List HttpRequest × Except ExecError (List Entry)) :
    List HttpRequest × Except ExecError (List Entry) :=
  let baseUrl := resolveBaseUrl cred
  let req := orgLookupReq baseUrl cred.apiToken
  match env.http req with
  | Except.error m =>
      ([req], Except.error { kind := ErrKind.transport, message := m, itemIndex := none })
  | Except.ok tj =>
      match orgIdFromResponse tj with
      | none => ([req], Except.error { kind := ErrKind.configuration, message := noOrgMsg, itemIndex := none })
      | some orgId =>
          let r := k baseUrl orgId
          (req :: r.1, r.2)

/-- A binary attachment of an input item: its file name (absent when the
producing node set none) and the base64 text of its bytes. -/
structure BinaryData where
  fileName : Option String
  dataB64 : String

/-- One input item: its named binary attachments. -/
structure ItemInput where
  binary : List (String × BinaryData)

/-- `items[itemIndex].binary?.[binaryPropertyName]`. -/
def binaryOf (items : List ItemInput) (i : Nat) (prop : String) : Option BinaryData :=
  match items.get? i with
  | some it => it.binary.lookup prop
  | none => none

/-- `documentNameParam?.jsTrim() || (binaryData.fileName as string) || 'document'`. -/
def resolveDocumentName (param : String) (fileName : Option String) : String :=
  strOr param.jsTrim (strOr (fileName.getD "") "document")

/-- `tagIdsParam ? tagIdsParam.split(',').map(trim).filter(Boolean) : []`. -/
def normalizeTagIds (s : String) : List String :=
  if s = "" then [] else ((s.jsSplitComma).map String.jsTrim).filter (fun t => t ≠ "")

/-! ## DocRouterDocument node -/

/-- Parameter values of the `DocRouterDocument` node (one record per item,
mirroring `getNodeParameter(name, itemIndex)`). -/
structure DocParams where
  operation : String
  binaryPropertyName : String
  documentName : String
  tagIds : String
  metadata : JsParam
  limit : Rat
  skip : Rat
  filterTagIds : String
  nameSearch : String
  metadataSearch : String
  documentId : String
  fileType : String
  newDocumentName : String

/-- The document-upload request body
`{ documents: [{ name, content, tag_ids?, metadata? }] }` (keys whose value is
`undefined` are not serialized). -/
def docUploadBody (documentName content : String) (tagIds : List String)
    (metadata : Json) : Json :=
  Json.obj [("documents", Json.arr [Json.obj
    ([("name", Json.str documentName), ("content", Json.str content)]
      ++ (if tagIds.length ≠ 0 then [("tag_ids", Json.arr (tagIds.map Json.str))] else [])
      ++ (if (coalesceNull metadata).keysCount ≠ 0 then [("metadata", metadata)] else []))])]

/-- The sparse `update` body of the document node: `document_name` when a new
name was given, `tag_ids` when the comma list is non-empty text, `metadata`
when the (parsed) object has keys. -/
def docUpdateBody (env : Env) (p : DocParams) : Except ExecError Json :=
  let base : List (String × Json) :=
    (if p.newDocumentName ≠ "" then [("document_name", Json.str p.newDocumentName)] else [])
      ++ (if p.tagIds ≠ "" then
            [("tag_ids", Json.arr ((((p.tagIds.jsSplitComma).map String.jsTrim).filter
                (fun t => t ≠ "")).map Json.str))]
          else [])
  let truthy : Bool := match p.metadata with
    | JsParam.text s => s ≠ ""
    | JsParam.obj _ => true
  if truthy then
    match parseJsParam env p.metadata "{}" with
    | Except.error e => Except.error e
    | Except.ok metadata =>
        Except.ok (Json.obj (base ++
          (if metadata.keysCount > 0 then [("metadata", metadata)] else [])))
  else Except.ok (Json.obj base)

/-- Per-item processing of the document node (`upload`, `get`, `update`,
`delete`, and the default unknown-operation case). -/
def DocRouterDocument.step (env : Env) (baseUrl orgId : String)
    (getP : Nat → DocParams) (items : List ItemInput) (op : String) (i : Nat) : StepResult :=
  let p := getP i
  if op = "upload" then
    match binaryOf items i p.binaryPropertyName with
    | none =>
        ([], Except.error
          { kind := ErrKind.missingInput,
            message := "No binary data found on property \"" ++ p.binaryPropertyName ++ "\"",
            itemIndex := some i })
    | some b =>
        let content := b.dataB64
        let documentName := resolveDocumentName p.documentName b.fileName
        let tagIds := normalizeTagIds p.tagIds
        match parseJsParam env p.metadata "{}" with
        | Except.error e => ([], Except.error e)
        | Except.ok metadata =>
            httpCall env
              { method := "POST", baseURL := baseUrl,
                url := orgUrl orgId "/documents", qs := [],
                body := some (docUploadBody documentName content tagIds metadata) }
  else if op = "get" then
    httpCall env
      { method := "GET", baseURL := baseUrl,
        url := orgUrl orgId ("/documents/" ++ p.documentId),
        qs := [("file_type", Json.str p.fileType)], body := none }
  else if op = "update" then
    match docUpdateBody env p with
    | Except.error e => ([], Except.error e)
    | Except.ok body =>
        let r := httpCall env
          { method := "PUT", baseURL := baseUrl,
            url := orgUrl orgId ("/documents/" ++ p.documentId), qs := [], body := some body }
        (r.1, match r.2 with
          | Except.ok j => Except.ok (match j with
              | Json.null => Json.obj [("success", Json.bool true)]
              | _ => j)
          | Except.error e => Except.error e)
  else if op = "delete" then
    let r := httpCall env
      { method := "DELETE", baseURL := baseUrl,
        url := orgUrl orgId ("/documents/" ++ p.documentId), qs := [], body := none }
    (r.1, match r.2 with
      | Except.ok _ => Except.ok (Json.obj [("success", Json.bool true),
          ("documentId", Json.str p.documentId)])
      | Except.error e => Except.error e)
  else
    ([], Except.error
      { kind := ErrKind.unsupportedOperation,
        message := "Unknown operation: " ++ op, itemIndex := none })

/-- The whole-batch `list` action of the document node. -/
def DocRouterDocument.listOnce (env : Env) (baseUrl orgId : String) (p : DocParams) : StepResult :=
  let qs := [("limit", Json.num p.limit), ("skip", Json.num p.skip)]
    ++ (if p.filterTagIds ≠ "" then [("tag_ids", Json.str p.filterTagIds)] else [])
    ++ (if p.nameSearch ≠ "" then [("name_search", Json.str p.nameSearch)] else [])
    ++ (if p.metadataSearch ≠ "" then [("metadata_search", Json.str p.metadataSearch)] else [])
  httpCall env
    { method := "GET", baseURL := baseUrl,
      url := orgUrl orgId "/documents", qs := qs, body := none }

/-- `DocRouterDocument.execute`. -/
def DocRouterDocument.execute (env : Env) (cred : Credential)
    (getP : Nat → DocParams) (items : List ItemInput) :
    List HttpRequest × Except ExecError (List Entry) :=
  let op := (getP 0).operation
  withOrgContext env cred
    "Could not determine organization ID from token. Make sure you are using an organization-level API token."
    (fun baseUrl orgId =>
      if op = "list" then
        runOnce env.continueOnFail (DocRouterDocument.listOnce env baseUrl orgId (getP 0))
      else
        runItems env.continueOnFail true
          (DocRouterDocument.step env baseUrl orgId getP items op) 0 items.length)

/-! ## DocRouterTag node -/

/-- Parameter values of the `DocRouterTag` node. -/
structure TagParams where
  operation : String
  limit : Rat
  skip : Rat
  nameSearch : String
  tagId : String
  tagName : String
  color : String
  description : String

/-- The tag body used by both `create` and `update`: always `name`, plus
`color` / `description` when non-blank after trimming. -/
def tagBody (p : TagParams) : Json :=
  Json.obj ([("name", Json.str p.tagName.jsTrim)]
    ++ (if p.color.jsTrim ≠ "" then [("color", Json.str p.color.jsTrim)] else [])
    ++ (if p.description.jsTrim ≠ "" then [("description", Json.str p.description.jsTrim)] else []))

/-- Per-item processing of the tag node (`get`, `create`, `update`, `delete`,
default unknown-operation case; no custom-API-call branch exists here). -/
def DocRouterTag.step (env : Env) (baseUrl orgId : String)
    (getP : Nat → TagParams) (op : String) (i : Nat) : StepResult :=
  let p := getP i
  if op = "get" then
    httpCall env
      { method := "GET", baseURL := baseUrl,
        url := orgUrl orgId ("/tags/" ++ p.tagId), qs := [], body := none }
  else if op = "create" then
    httpCall env
      { method := "POST", baseURL := baseUrl,
        url := orgUrl orgId "/tags", qs := [], body := some (tagBody p) }
  else if op = "update" then
    httpCall env
      { method := "PUT", baseURL := baseUrl,
        url := orgUrl orgId ("/tags/" ++ p.tagId), qs := [], body := some (tagBody p) }
  else if op = "delete" then
    let r := httpCall env
      { method := "DELETE", baseURL := baseUrl,
        url := orgUrl orgId ("/tags/" ++ p.tagId), qs := [], body := none }
    (r.1, match r.2 with
      | Except.ok _ => Except.ok (Json.obj [("success", Json.bool true),
          ("tagId", Json.str p.tagId)])
      | Except.error e => Except.error e)
  else
    ([], Except.error
      { kind := ErrKind.unsupportedOperation,
        message := "Unknown operation: " ++ op, itemIndex := none })

/-- The whole-batch `list` action of the tag node. -/
def DocRouterTag.listOnce (env : Env) (baseUrl orgId : String) (p : TagParams) : StepResult :=
  let qs := [("limit", Json.num p.limit), ("skip", Json.num p.skip)]
    ++ (if p.nameSearch.jsTrim ≠ "" then [("name_search", Json.str p.nameSearch.jsTrim)] else [])
  httpCall env
    { method := "GET", baseURL := baseUrl,
      url := orgUrl orgId "/tags", qs := qs, body := none }

/-- `DocRouterTag.execute`. -/
def DocRouterTag.execute (env : Env) (cred : Credential)
    (getP : Nat → TagParams) (items : List ItemInput) :
    List HttpRequest × Except ExecError (List Entry) :=
  let op := (getP 0).operation
  withOrgContext env cred
    "Could not determine organization ID from token. Use an organization-level API token."
    (fun baseUrl orgId =>
      if op = "list" then
        runOnce env.continueOnFail (DocRouterTag.listOnce env baseUrl orgId (getP 0))
      else
        runItems env.continueOnFail true
          (DocRouterTag.step env baseUrl orgId getP op) 0 items.length)

/-! ## DocRouterSchema node -/

/-- Parameter values of the `DocRouterSchema` node. -/
structure SchemaParams where
  operation : String
  limit : Rat
  skip : Rat
  nameSearch : String
  schemaRevid : String
  schemaId : String
  name : String
  jsonSchema : JsParam
  validateData : JsParam

/-- Per-item processing of the schema node (`get`, `create`, `update`,
`delete`, default case with the custom-API-call message). -/
def DocRouterSchema.step (env : Env) (baseUrl orgId : String)
    (getP : Nat → SchemaParams) (op : String) (i : Nat) : StepResult :=
  let p := getP i
  if op = "get" then
    httpCall env
      { method := "GET", baseURL := baseUrl,
        url := orgUrl orgId ("/schemas/" ++ p.schemaRevid), qs := [], body := none }
  else if op = "create" then
    match parseJsParam env p.jsonSchema "{}" with
    | Except.error e => ([], Except.error e)
    | Except.ok jsonSchema =>
        httpCall env
          { method := "POST", baseURL := baseUrl,
            url := orgUrl orgId "/schemas", qs := [],
            body := some (Json.obj [("name", Json.str p.name.jsTrim),
              ("json_schema", jsonSchema)]) }
  else if op = "update" then
    match parseJsParam env p.jsonSchema "{}" with
    | Except.error e => ([], Except.error e)
    | Except.ok jsonSchema =>
        httpCall env
          { method := "PUT", baseURL := baseUrl,
            url := orgUrl orgId ("/schemas/" ++ p.schemaId), qs := [],
            body := some (Json.obj [("name", Json.str p.name.jsTrim),
              ("json_schema", jsonSchema)]) }
  else if op = "delete" then
    let r := httpCall env
      { method := "DELETE", baseURL := baseUrl,
        url := orgUrl orgId ("/schemas/" ++ p.schemaId), qs := [], body := none }
    (r.1, match r.2 with
      | Except.ok _ => Except.ok (Json.obj [("success", Json.bool true),
          ("schemaId", Json.str p.schemaId)])
      | Except.error e => Except.error e)
  else if op = "__CUSTOM_API_CALL__" then
    ([], Except.error
      { kind := ErrKind.unsupportedOperation,
        message := "For custom API calls, use the HTTP Request node and choose \"DocRouter Organization API\" under Authentication â†’ Predefined Credential Type. This node only supports List, Get, Create, Update, Delete, Validate, and List Versions.",
        itemIndex := none })
  else
    ([], Except.error
      { kind := ErrKind.unsupportedOperation,
        message := "Unknown operation: " ++ op, itemIndex := none })

/-- The whole-batch actions of the schema node: `list`, `listVersions` and
`validate` each run once regardless of the item count. -/
def DocRouterSchema.listOnce (env : Env) (baseUrl orgId : String) (p : SchemaParams) : StepResult :=
  let qs := [("limit", Json.num p.limit), ("skip", Json.num p.skip)]
    ++ (if p.nameSearch.jsTrim ≠ "" then [("name_search", Json.str p.nameSearch.jsTrim)] else [])
  httpCall env
    { method := "GET", baseURL := baseUrl,
      url := orgUrl orgId "/schemas", qs := qs, body := none }

/-- The whole-batch `listVersions` action of the schema node. -/
def DocRouterSchema.listVersionsOnce (env : Env) (baseUrl orgId : String)
    (p : SchemaParams) : StepResult :=
  httpCall env
    { method := "GET", baseURL := baseUrl,
      url := orgUrl orgId ("/schemas/" ++ p.schemaId ++ "/versions"), qs := [], body := none }

/-- The whole-batch `validate` action of the schema node. -/
def DocRouterSchema.validateOnce (env : Env) (baseUrl orgId : String)
    (p : SchemaParams) : StepResult :=
  match parseJsParam env p.validateData "{}" with
  | Except.error e => ([], Except.error e)
  | Except.ok validateData =>
      httpCall env
        { method := "POST", baseURL := baseUrl,
          url := orgUrl orgId ("/schemas/" ++ p.schemaRevid ++ "/validate"), qs := [],
          body := some validateData }

/-- `DocRouterSchema.execute`. -/
def DocRouterSchema.execute (env : Env) (cred : Credential)
    (getP : Nat → SchemaParams) (items : List ItemInput) :
    List HttpRequest × Except ExecError (List Entry) :=
  let op := (getP 0).operation
  withOrgContext env cred
    "Could not determine organization ID from token. Use an organization-level API token."
    (fun baseUrl orgId =>
      if op = "list" then
        runOnce env.continueOnFail (DocRouterSchema.listOnce env baseUrl orgId (getP 0))
      else if op = "listVersions" then
        runOnce env.continueOnFail (DocRouterSchema.listVersionsOnce env baseUrl orgId (getP 0))
      else if op = "validate" then
        runOnce env.continueOnFail (DocRouterSchema.validateOnce env baseUrl orgId (getP 0))
      else
        runItems env.continueOnFail true
          (DocRouterSchema.step env baseUrl orgId getP op) 0 items.length)

/-! ## DocRouterLLM node -/

/-- Parameter values of the `DocRouterLLM` node. -/
structure LlmParams where
  operation : String
  documentId : String
  promptRevid : String
  force : Bool
  fallback : Bool
  updatedLlmResult : JsParam
  isVerified : Bool

/-- Per-item processing of the LLM node (`run`, `get`, `update`, `delete`,
default case with the custom-API-call message); every operation is per-item. -/
def DocRouterLLM.step (env : Env) (baseUrl orgId : String)
    (getP : Nat → LlmParams) (op : String) (i : Nat) : StepResult :=
  let p := getP i
  let documentId := p.documentId
  let promptRevid := p.promptRevid
  if op = "run" then
    httpCall env
      { method := "POST", baseURL := baseUrl,
        url := orgUrl orgId ("/llm/run/" ++ documentId),
        qs := [("prompt_revid", Json.str (strOr promptRevid "default")),
          ("force", Json.bool p.force)],
        body := none }
  else if op = "get" then
    httpCall env
      { method := "GET", baseURL := baseUrl,
        url := orgUrl orgId ("/llm/result/" ++ documentId),
        qs := [("prompt_revid", Json.str (strOr promptRevid "default")),
          ("fallback", Json.bool p.fallback)],
        body := none }
  else if op = "update" then
    match parseJsParam env p.updatedLlmResult "{}" with
    | Except.error e => ([], Except.error e)
    | Except.ok updatedLlmResult =>
        if promptRevid.jsTrim = "" then
          ([], Except.error
            { kind := ErrKind.validation,
              message := "Prompt Revision ID is required for Update.", itemIndex := some i })
        else
          httpCall env
            { method := "PUT", baseURL := baseUrl,
              url := orgUrl orgId ("/llm/result/" ++ documentId),
              qs := [("prompt_revid", Json.str promptRevid.jsTrim)],
              body := some (Json.obj [("updated_llm_result", updatedLlmResult),
                ("is_verified", Json.bool p.isVerified)]) }
  else if op = "delete" then
    if promptRevid.jsTrim = "" then
      ([], Except.error
        { kind := ErrKind.validation,
          message := "Prompt Revision ID is required for Delete.", itemIndex := some i })
    else
      let r := httpCall env
        { method := "DELETE", baseURL := baseUrl,
          url := orgUrl orgId ("/llm/result/" ++ documentId),
          qs := [("prompt_revid", Json.str promptRevid.jsTrim)], body := none }
      (r.1, match r.2 with
        | Except.ok _ => Except.ok (Json.obj [("success", Json.bool true),
            ("documentId", Json.str documentId),
            ("promptRevid", Json.str promptRevid.jsTrim)])
        | Except.error e => Except.error e)
  else if op = "__CUSTOM_API_CALL__" then
    ([], Except.error
      { kind := ErrKind.unsupportedOperation,
        message := "For custom API calls, use the HTTP Request node and choose \"DocRouter Organization API\" under Authentication â†’ Predefined Credential Type. This node only supports Run, Get, Update, and Delete.",
        itemIndex := none })
  else
    ([], Except.error
      { kind := ErrKind.unsupportedOperation,
        message := "Unknown operation: " ++ op, itemIndex := none })

/-- `DocRouterLLM.execute` (no batch-level operations: always the item loop). -/
def DocRouterLLM.execute (env : Env) (cred : Credential)
    (getP : Nat → LlmParams) (items : List ItemInput) :
    List HttpRequest × Except ExecError (List Entry) :=
  let op := (getP 0).operation
  withOrgContext env cred
    "Could not determine organization ID from token. Use an organization-level API token."
    (fun baseUrl orgId =>
      runItems env.continueOnFail true
        (DocRouterLLM.step env baseUrl orgId getP op) 0 items.length)

/-! ## DocRouter node (upload-only legacy node) -/

/-- Parameter values of the `DocRouter` node; `execute` reads them all at item
index 0. -/
structure DcrParams where
  operation : String
  organizationId : String
  binaryPropertyName : String
  documentName : String
  tagIds : String
  metadata : JsParam

/-- Per-item processing of the `DocRouter` upload loop. -/
def DocRouter.step (env : Env) (baseUrl : String) (p : DcrParams)
    (items : List ItemInput) (i : Nat) : StepResult :=
  match binaryOf items i p.binaryPropertyName with
  | none =>
      ([], Except.error
        { kind := ErrKind.missingInput,
          message := "No binary data found on property \"" ++ p.binaryPropertyName ++ "\"",
          itemIndex := some i })
  | some b =>
      let content := b.dataB64
      let documentName := resolveDocumentName p.documentName b.fileName
      let tagIds := normalizeTagIds p.tagIds
      match parseJsParam env p.metadata "{}" with
      | Except.error e => ([], Except.error e)
      | Except.ok metadata =>
          httpCall env
            { method := "POST", baseURL := baseUrl,
              url := orgUrl p.organizationId "/documents", qs := [],
              body := some (docUploadBody documentName content tagIds metadata) }

/-- `DocRouter.execute`: rejects any operation other than `upload` before
touching credentials or items, then loops over items. -/
def DocRouter.execute (env : Env) (cred : Credential)
    (getP : Nat → DcrParams) (items : List ItemInput) :
    List HttpRequest × Except ExecError (List Entry) :=
  let p := getP 0
  if p.operation ≠ "upload" then
    ([], Except.error
      { kind := ErrKind.unsupportedOperation,
        message := "Unknown operation: " ++ p.operation, itemIndex := none })
  else
    let baseUrl := resolveBaseUrl cred
    runItems env.continueOnFail true (DocRouter.step env baseUrl p items) 0 items.length

/-! ## DocRouterAccount node -/

/-- Parameter values of the `DocRouterAccount` node. -/
structure AccountParams where
  operation : String
  limit : Rat
  skip : Rat
  organizationIdFilter : String
  searchName : String
  userId : String
  email : String
  userName : String
  password : String
  userNameUpdate : String
  passwordUpdate : String
  role : String
  orgLimit : Rat
  orgSkip : Rat
  orgUserId : String
  nameSearch : String
  memberSearch : String
  organizationId : String
  orgName : String
  orgType : String
  orgNameUpdate : String
  orgTypeUpdate : String
  members : String

/-- The raw `this.getNode().parameters` bag of the account node: `none` models
a key that is absent or holds `null`/`undefined` (the source tests
`'key' in nodeParams && nodeParams.key != null`). -/
structure AccountRaw where
  role : Option String
  emailVerified : Option Bool
  hasSeenTour : Option Bool
  orgTypeUpdate : Option String

/-- The sparse `updateUser` body: `name`/`password` when non-empty,
`role`/`email_verified`/`has_seen_tour` when present in the raw bag. -/
def accountUpdateUserBody (p : AccountParams) (raw : AccountRaw) : List (String × Json) :=
  (if p.userNameUpdate ≠ "" then [("name", Json.str p.userNameUpdate.jsTrim)] else [])
    ++ (if p.passwordUpdate ≠ "" then [("password", Json.str p.passwordUpdate)] else [])
    ++ (match raw.role with
      | some rawRole => [("role", Json.str (strOr p.role rawRole))]
      | none => [])
    ++ (match raw.emailVerified with
      | some b => [("email_verified", Json.bool b)]
      | none => [])
    ++ (match raw.hasSeenTour with
      | some b => [("has_seen_tour", Json.bool b)]
      | none => [])

/-- The sparse `updateOrganization` body, with `members` parsed from JSON text
(a parse failure is re-thrown as the dedicated validation error). -/
def accountUpdateOrgBody (env : Env) (p : AccountParams) (raw : AccountRaw) :
    Except ExecError (List (String × Json)) :=
  let base :=
    (if p.orgNameUpdate ≠ "" then [("name", Json.str p.orgNameUpdate.jsTrim)] else [])
      ++ (match raw.orgTypeUpdate with
        | some rawType => [("type", Json.str (strOr p.orgTypeUpdate rawType))]
        | none => [])
  if p.members.jsTrim ≠ "" then
    match env.parseJson p.members.jsTrim with
    | some membersJson => Except.ok (base ++ [("members", membersJson)])
    | none => Except.error
        { kind := ErrKind.validation,
          message := "Members must be a valid JSON array", itemIndex := none }
  else Except.ok base

/-- Per-item processing of the account node (`createUser`, `updateUser`,
`deleteUser`, `createOrganization`, `updateOrganization`,
`deleteOrganization`, and the default case with the custom-API-call branch). -/
def DocRouterAccount.step (env : Env) (baseUrl : String)
    (getP : Nat → AccountParams) (raw : AccountRaw) (op : String) (i : Nat) : StepResult :=
  let p := getP i
  if op = "createUser" then
    httpCall env
      { method := "POST", baseURL := baseUrl, url := "/v0/account/users", qs := [],
        body := some (Json.obj [("email", Json.str p.email.jsTrim),
          ("name", Json.str p.userName.jsTrim), ("password", Json.str p.password)]) }
  else if op = "updateUser" then
    let body := accountUpdateUserBody p raw
    if body.length = 0 then
      ([], Except.error
        { kind := ErrKind.validation,
          message := "Provide at least one field to update (name, password, role, email verified, or has seen tour).",
          itemIndex := none })
    else
      httpCall env
        { method := "PUT", baseURL := baseUrl,
          url := "/v0/account/users/" ++ p.userId.jsTrim, qs := [],
          body := some (Json.obj body) }
  else if op = "deleteUser" then
    let r := httpCall env
      { method := "DELETE", baseURL := baseUrl,
        url := "/v0/account/users/" ++ p.userId.jsTrim, qs := [], body := none }
    (r.1, match r.2 with
      | Except.ok _ => Except.ok (Json.obj [("success", Json.bool true),
          ("user_id", Json.str p.userId.jsTrim)])
      | Except.error e => Except.error e)
  else if op = "createOrganization" then
    httpCall env
      { method := "POST", baseURL := baseUrl, url := "/v0/account/organizations", qs := [],
        body := some (Json.obj [("name", Json.str p.orgName.jsTrim),
          ("type", Json.str (strOr p.orgType "individual"))]) }
  else if op = "updateOrganization" then
    match accountUpdateOrgBody env p raw with
    | Except.error e => ([], Except.error e)
    | Except.ok body =>
        httpCall env
          { method := "PUT", baseURL := baseUrl,
            url := "/v0/account/organizations/" ++ p.organizationId.jsTrim, qs := [],
            body := some (Json.obj body) }
  else if op = "deleteOrganization" then
    let r := httpCall env
      { method := "DELETE", baseURL := baseUrl,
        url := "/v0/account/organizations/" ++ p.organizationId.jsTrim, qs := [], body := none }
    (r.1, match r.2 with
      | Except.ok _ => Except.ok (Json.obj [("success", Json.bool true),
          ("organization_id", Json.str p.organizationId.jsTrim)])
      | Except.error e => Except.error e)
  else if op = "__CUSTOM_API_CALL__" then
    ([], Except.error
      { kind := ErrKind.unsupportedOperation,
        message := "For custom API calls, use the HTTP Request node with DocRouter Account API credentials. This node only supports account users and organizations operations.",
        itemIndex := none })
  else
    ([], Except.error
      { kind := ErrKind.unsupportedOperation,
        message := "Unknown operation: " ++ op, itemIndex := none })

/-- The run-once actions of the account node: `listUsers`, `getUser`,
`listOrganizations`, and `getOrganization` (the final else branch). -/
def DocRouterAccount.runOnceAct (env : Env) (baseUrl : String)
    (p : AccountParams) (op : String) : StepResult :=
  if op = "listUsers" then
    let qs := [("limit", Json.num p.limit), ("skip", Json.num p.skip)]
      ++ (if p.organizationIdFilter.jsTrim ≠ "" then
            [("organization_id", Json.str p.organizationIdFilter.jsTrim)] else [])
      ++ (if p.searchName.jsTrim ≠ "" then [("search_name", Json.str p.searchName.jsTrim)] else [])
    httpCall env
      { method := "GET", baseURL := baseUrl, url := "/v0/account/users", qs := qs, body := none }
  else if op = "getUser" then
    httpCall env
      { method := "GET", baseURL := baseUrl, url := "/v0/account/users",
        qs := [("user_id", Json.str p.userId.jsTrim)], body := none }
  else if op = "listOrganizations" then
    let qs := [("limit", Json.num p.orgLimit), ("skip", Json.num p.orgSkip)]
      ++ (if p.orgUserId.jsTrim ≠ "" then [("user_id", Json.str p.orgUserId.jsTrim)] else [])
      ++ (if p.nameSearch.jsTrim ≠ "" then [("name_search", Json.str p.nameSearch.jsTrim)] else [])
      ++ (if p.memberSearch.jsTrim ≠ "" then
            [("member_search", Json.str p.memberSearch.jsTrim)] else [])
    httpCall env
      { method := "GET", baseURL := baseUrl, url := "/v0/account/organizations",
        qs := qs, body := none }
  else
    httpCall env
      { method := "GET", baseURL := baseUrl, url := "/v0/account/organizations",
        qs := [("organization_id", Json.str p.organizationId.jsTrim)], body := none }

/-- The operations `DocRouterAccount.execute` runs once for the whole batch. -/
def accountRunOnceOps : List String :=
  ["listUsers", "listOrganizations", "getUser", "getOrganization"]

/-- `DocRouterAccount.execute`: no organization lookup; `handleError` never
annotates the re-thrown error with the item index (`ann := false`). -/
def DocRouterAccount.execute (env : Env) (cred : Credential)
    (getP : Nat → AccountParams) (raw : AccountRaw) (items : List ItemInput) :
    List HttpRequest × Except ExecError (List Entry) :=
  let op := (getP 0).operation
  let baseUrl := resolveBaseUrl cred
  if op ∈ accountRunOnceOps then
    runOnce env.continueOnFail (DocRouterAccount.runOnceAct env baseUrl (getP 0) op)
  else
    runItems env.continueOnFail false
      (DocRouterAccount.step env baseUrl getP raw op) 0 items.length

/-! ## DocRouterKnowledgeBase node -/

/-- Parameter values of the `DocRouterKnowledgeBase` node. -/
structure KbParams where
  operation : String
  limit : Rat
  skip : Rat
  nameSearch : String
  kbId : String
  listLimit : Rat
  listSkip : Rat
  documentId : String
  chunksLimit : Rat
  chunksSkip : Rat
  searchQuery : String
  topK : Rat
  searchSkip : Rat
  metadataFilter : JsParam
  chatModel : String
  messages : JsParam
  temperature : Rat
  stream : Bool
  chatMetadataFilter : JsParam
  dryRun : Bool
  name : String
  description : String
  tagIds : String
  chunkerType : String
  chunkSize : Rat
  chunkOverlap : Rat
  embeddingModel : String
  coalesceNeighbors : Rat
  reconcileEnabled : Bool
  reconcileIntervalSeconds : Option Rat

/-- The raw `this.getNode().parameters` bag of the knowledge-base node. -/
structure KbRaw where
  maxTokens : Option Rat
  coalesceNeighborsSearch : Option Rat

/-- `tagIdsStr?.jsTrim() ? tagIdsStr.split(',').map(trim).filter(Boolean) : []`
(unlike the document node this always produces a list, `[]` when blank). -/
def kbTagIds (s : String) : List String :=
  if s.jsTrim ≠ "" then ((s.jsSplitComma).map String.jsTrim).filter (fun t => t ≠ "") else []

/-- The `create` body of the knowledge-base node (every field always sent;
`reconcile_interval_seconds` only when enabled and at least 60). -/
def kbCreateBody (p : KbParams) : Json :=
  Json.obj ([("name", Json.str p.name.jsTrim),
    ("description", Json.str p.description.jsTrim),
    ("tag_ids", Json.arr ((kbTagIds p.tagIds).map Json.str)),
    ("chunker_type", Json.str (strOr p.chunkerType.jsTrim "recursive")),
    ("chunk_size", Json.num p.chunkSize),
    ("chunk_overlap", Json.num p.chunkOverlap),
    ("embedding_model", Json.str (strOr p.embeddingModel.jsTrim "text-embedding-3-small")),
    ("coalesce_neighbors", Json.num p.coalesceNeighbors),
    ("reconcile_enabled", Json.bool p.reconcileEnabled)]
    ++ (match p.reconcileIntervalSeconds with
      | some ris => if p.reconcileEnabled ∧ ris ≥ 60 then
          [("reconcile_interval_seconds", Json.num ris)] else []
      | none => []))

/-- The `update` body of the knowledge-base node (full field set, not a
sparse patch). -/
def kbUpdateBody (p : KbParams) : Json :=
  Json.obj ([("name", Json.str p.name.jsTrim),
    ("description", Json.str p.description.jsTrim),
    ("tag_ids", Json.arr ((kbTagIds p.tagIds).map Json.str)),
    ("coalesce_neighbors", Json.num p.coalesceNeighbors),
    ("reconcile_enabled", Json.bool p.reconcileEnabled)]
    ++ (match p.reconcileIntervalSeconds with
      | some ris => if p.reconcileEnabled ∧ ris ≥ 60 then
          [("reconcile_interval_seconds", Json.num ris)] else []
      | none => []))

/-- Per-item processing of the knowledge-base node (`get`, `create`,
`update`, `delete`, default case with the custom-API-call message). -/
def DocRouterKnowledgeBase.step (env : Env) (baseUrl orgId : String)
    (getP : Nat → KbParams) (op : String) (i : Nat) : StepResult :=
  let p := getP i
  if op = "get" then
    httpCall env
      { method := "GET", baseURL := baseUrl,
        url := orgUrl orgId ("/knowledge-bases/" ++ p.kbId), qs := [], body := none }
  else if op = "create" then
    httpCall env
      { method := "POST", baseURL := baseUrl,
        url := orgUrl orgId "/knowledge-bases", qs := [], body := some (kbCreateBody p) }
  else if op = "update" then
    httpCall env
      { method := "PUT", baseURL := baseUrl,
        url := orgUrl orgId ("/knowledge-bases/" ++ p.kbId), qs := [],
        body := some (kbUpdateBody p) }
  else if op = "delete" then
    let r := httpCall env
      { method := "DELETE", baseURL := baseUrl,
        url := orgUrl orgId ("/knowledge-bases/" ++ p.kbId), qs := [], body := none }
    (r.1, match r.2 with
      | Except.ok _ => Except.ok (Json.obj [("success", Json.bool true),
          ("kbId", Json.str p.kbId)])
      | Except.error e => Except.error e)
  else if op = "__CUSTOM_API_CALL__" then
    ([], Except.error
      { kind := ErrKind.unsupportedOperation,
        message := "For custom API calls, use the HTTP Request node and choose \"DocRouter Organization API\" under Authentication → Predefined Credential Type. This node only supports List, Get, Create, Update, Delete, List Documents, List Chunks, Search, Chat, Reconcile, and Reconcile All.",
        itemIndex := none })
  else
    ([], Except.error
      { kind := ErrKind.unsupportedOperation,
        message := "Unknown operation: " ++ op, itemIndex := none })

/-- The run-once actions of the knowledge-base node. -/
def DocRouterKnowledgeBase.runOnceAct (env : Env) (baseUrl orgId : String)
    (p : KbParams) (raw : KbRaw) (op : String) : StepResult :=
  if op = "list" then
    let qs := [("limit", Json.num p.limit), ("skip", Json.num p.skip)]
      ++ (if p.nameSearch.jsTrim ≠ "" then [("name_search", Json.str p.nameSearch.jsTrim)] else [])
    httpCall env
      { method := "GET", baseURL := baseUrl,
        url := orgUrl orgId "/knowledge-bases", qs := qs, body := none }
  else if op = "listDocuments" then
    httpCall env
      { method := "GET", baseURL := baseUrl,
        url := orgUrl orgId ("/knowledge-bases/" ++ p.kbId ++ "/documents"),
        qs := [("limit", Json.num p.listLimit), ("skip", Json.num p.listSkip)], body := none }
  else if op = "listChunks" then
    httpCall env
      { method := "GET", baseURL := baseUrl,
        url := orgUrl orgId ("/knowledge-bases/" ++ p.kbId ++ "/documents/"
          ++ p.documentId ++ "/chunks"),
        qs := [("limit", Json.num p.chunksLimit), ("skip", Json.num p.chunksSkip)],
        body := none }
  else if op = "search" then
    match parseJsParam env p.metadataFilter "{}" with
    | Except.error e => ([], Except.error e)
    | Except.ok metadataFilter =>
        let body := Json.obj ([("query", Json.str p.searchQuery.jsTrim),
          ("top_k", Json.num p.topK), ("skip", Json.num p.searchSkip)]
          ++ (if metadataFilter.keysCount > 0 then [("metadata_filter", metadataFilter)] else [])
          ++ (match raw.coalesceNeighborsSearch with
            | some c => [("coalesce_neighbors", Json.num c)]
            | none => []))
        httpCall env
          { method := "POST", baseURL := baseUrl,
            url := orgUrl orgId ("/knowledge-bases/" ++ p.kbId ++ "/search"), qs := [],
            body := some body }
  else if op = "chat" then
    match parseJsParam env p.messages "[]" with
    | Except.error e => ([], Except.error e)
    | Except.ok messages =>
        match parseJsParam env p.chatMetadataFilter "{}" with
        | Except.error e => ([], Except.error e)
        | Except.ok chatMetadataFilter =>
            let body := Json.obj ([("model", Json.str p.chatModel.jsTrim),
              ("messages", messages), ("temperature", Json.num p.temperature),
              ("stream", Json.bool p.stream)]
              ++ (match raw.maxTokens with
                | some m => [("max_tokens", Json.num m)]
                | none => [])
              ++ (if chatMetadataFilter.keysCount > 0 then
                    [("metadata_filter", chatMetadataFilter)] else []))
            httpCall env
              { method := "POST", baseURL := baseUrl,
                url := orgUrl orgId ("/knowledge-bases/" ++ p.kbId ++ "/chat"), qs := [],
                body := some body }
  else if op = "reconcile" then
    httpCall env
      { method := "POST", baseURL := baseUrl,
        url := orgUrl orgId ("/knowledge-bases/" ++ p.kbId ++ "/reconcile"),
        qs := [("dry_run", Json.bool p.dryRun)], body := none }
  else
    httpCall env
      { method := "POST", baseURL := baseUrl,
        url := orgUrl orgId "/knowledge-bases/reconcile-all",
        qs := [("dry_run", Json.bool p.dryRun)], body := none }

/-- The operations the knowledge-base node runs once for the whole batch. -/
def kbRunOnceOps : List String :=
  ["list", "listDocuments", "listChunks", "search", "chat", "reconcile", "reconcileAll"]

/-- `DocRouterKnowledgeBase.execute`. -/
def DocRouterKnowledgeBase.execute (env : Env) (cred : Credential)
    (getP : Nat → KbParams) (raw : KbRaw) (items : List ItemInput) :
    List HttpRequest × Except ExecError (List Entry) :=
  let op := (getP 0).operation
  withOrgContext env cred
    "Could not determine organization ID from token. Use an organization-level API token."
    (fun baseUrl orgId =>
      if op ∈ kbRunOnceOps then
        runOnce env.continueOnFail
          (DocRouterKnowledgeBase.runOnceAct env baseUrl orgId (getP 0) raw op)
      else
        runItems env.continueOnFail true
          (DocRouterKnowledgeBase.step env baseUrl orgId getP op) 0 items.length)

/-! ## Derived notions used by the theorems -/

/-- Key list of a JSON object. -/
def Json.keys : Json → List String
  | Json.obj fs => fs.map Prod.fst
  | _ => []

/-- The output has one entry per input item, at matching positions. -/
def perItemShape (nItems : Nat) (es : List Entry) : Prop :=
  es.length = nItems ∧ ∀ k (hk : k < es.length), (es.get ⟨k, hk⟩).pairedItem = k

/-- The output is a single aggregate entry associated with position 0. -/
def onceShape (es : List Entry) : Prop :=
  es.length = 1 ∧ ∀ k (hk : k < es.length), (es.get ⟨k, hk⟩).pairedItem = 0

/-- Number of organization-lookup requests in a trace. -/
def countLookups (reqs : List HttpRequest) : Nat :=
  reqs.countP (fun r => r.url = tokenOrgUrl)

/-- The step issued no request and threw a validation-class error. -/
def failsBeforeAnyRequest (r : StepResult) : Prop :=
  r.1 = [] ∧ ∃ e, r.2 = Except.error e ∧ e.kind = ErrKind.validation

/-- Operations the document node runs once per batch. -/
def docOnceOps : List String := ["list"]

/-- Operations the document node runs per item. -/
def docItemOps : List String := ["upload", "get", "update", "delete"]

/-- Operations the tag node runs once per batch. -/
def tagOnceOps : List String := ["list"]

/-- Operations the tag node runs per item. -/
def tagItemOps : List String := ["get", "create", "update", "delete"]

/-- Operations the schema node runs once per batch. -/
def schemaOnceOps : List String := ["list", "listVersions", "validate"]

/-- Operations the schema node runs per item. -/
def schemaItemOps : List String := ["get", "create", "update", "delete"]

/-- Operations of the LLM node (all per item). -/
def llmItemOps : List String := ["run", "get", "update", "delete"]

/-- Operations the account node runs per item. -/
def accountItemOps : List String :=
  ["createUser", "updateUser", "deleteUser", "createOrganization", "updateOrganization",
    "deleteOrganization"]

/-- Operations the knowledge-base node runs per item. -/
def kbItemOps : List String := ["get", "create", "update", "delete"]

/-! ## Concrete fixtures used by witnesses and counterexamples -/

/-- A credential with no base-URL override. -/
def credW : Credential := { baseUrl := none, apiToken := "T" }

/-- A lookup response carrying an organization id. -/
def orgOkJson : Json := Json.obj [("organization_id", Json.str "org1")]

/-- A remote that answers every request with `orgOkJson`; `JSON.parse` fails
on every text (witnesses pass pre-parsed objects). -/
def envW (cof : Bool) : Env :=
  { http := fun _ => Except.ok orgOkJson, parseJson := fun _ => none, continueOnFail := cof }

/-- A remote whose lookup succeeds but returns an object without
`organization_id`. -/
def envNoOrg : Env :=
  { http := fun _ => Except.ok (Json.obj []), parseJson := fun _ => none,
    continueOnFail := false }

/-- An input item with a binary attachment under property `data`. -/
def itemB : ItemInput :=
  { binary := [("data", { fileName := some "f.pdf", dataB64 := "QUJD" })] }

/-- An input item with no binary attachment. -/
def itemN : ItemInput := { binary := [] }

/-- Baseline document-node parameters. -/
def docPW : DocParams :=
  { operation := "upload", binaryPropertyName := "data", documentName := "", tagIds := "",
    metadata := JsParam.obj (Json.obj []), limit := 10, skip := 0, filterTagIds := "",
    nameSearch := "", metadataSearch := "", documentId := "D1", fileType := "original",
    newDocumentName := "" }

/-- Baseline tag-node parameters. -/
def tagPW : TagParams :=
  { operation := "list", limit := 10, skip := 0, nameSearch := "", tagId := "T1",
    tagName := "n", color := "", description := "" }

/-- Baseline schema-node parameters. -/
def schemaPW : SchemaParams :=
  { operation := "list", limit := 10, skip := 0, nameSearch := "", schemaRevid := "R1",
    schemaId := "S1", name := "n", jsonSchema := JsParam.obj (Json.obj []),
    validateData := JsParam.obj (Json.obj []) }

/-- Baseline LLM-node parameters. -/
def llmPW : LlmParams :=
  { operation := "run", documentId := "D1", promptRevid := "default", force := false,
    fallback := false, updatedLlmResult := JsParam.obj (Json.obj []), isVerified := false }

/-- Baseline account-node parameters. -/
def accPW : AccountParams :=
  { operation := "listUsers", limit := 10, skip := 0, organizationIdFilter := "",
    searchName := "", userId := "U1", email := "e@x", userName := "u", password := "p",
    userNameUpdate := "", passwordUpdate := "", role := "", orgLimit := 10, orgSkip := 0,
    orgUserId := "", nameSearch := "", memberSearch := "", organizationId := "O1",
    orgName := "o", orgType := "individual", orgNameUpdate := "", orgTypeUpdate := "",
    members := "" }

/-- An account raw-parameter bag with every optional key absent. -/
def accRawW : AccountRaw :=
  { role := none, emailVerified := none, hasSeenTour := none, orgTypeUpdate := none }

/-- Baseline knowledge-base node parameters. -/
def kbPW : KbParams :=
  { operation := "list", limit := 10, skip := 0, nameSearch := "", kbId := "K1",
    listLimit := 10, listSkip := 0, documentId := "D1", chunksLimit := 100, chunksSkip := 0,
    searchQuery := "q", topK := 5, searchSkip := 0, metadataFilter := JsParam.obj (Json.obj []),
    chatModel := "gpt-4o-mini", messages := JsParam.obj (Json.arr []), temperature := 1,
    stream := true, chatMetadataFilter := JsParam.obj (Json.obj []), dryRun := false,
    name := "n", description := "", tagIds := "", chunkerType := "recursive",
    chunkSize := 512, chunkOverlap := 128, embeddingModel := "text-embedding-3-small",
    coalesceNeighbors := 0, reconcileEnabled := false, reconcileIntervalSeconds := none }

/-- A knowledge-base raw-parameter bag with every optional key absent. -/
def kbRawW : KbRaw := { maxTokens := none, coalesceNeighborsSearch := none }

/-- Baseline parameters of the upload-only DocRouter node. -/
def dcrPW : DcrParams :=
  { operation := "upload", organizationId := "org1", binaryPropertyName := "data",
    documentName := "", tagIds := "", metadata := JsParam.obj (Json.obj []) }

/-- Document-node parameters for a zero-field update. -/
def docUpdZeroPW : DocParams :=
  { docPW with operation := "update", metadata := JsParam.text "" }

/-- Document-node parameters for an update providing only the new name and a
one-key metadata object. -/
def docUpdNamePW : DocParams :=
  { docPW with
    newDocumentName := "N"
    metadata := JsParam.obj (Json.obj [("a", Json.str "b")]) }

/-- Tag-node parameters with every text field blank. -/
def tagBlankPW : TagParams :=
  { tagPW with tagName := "", color := "", description := "" }

/-- Parameters carrying malformed JSON text in each free-form JSON field. -/
def docBadMetaPW : DocParams := { docPW with metadata := JsParam.text "\x7bbad" }

/-- Document update parameters with malformed metadata text. -/
def docBadMetaUpdPW : DocParams :=
  { docPW with
    operation := "update"
    metadata := JsParam.text "\x7bbad" }

/-- Upload-only node parameters with malformed metadata text. -/
def dcrBadPW : DcrParams := { dcrPW with metadata := JsParam.text "\x7bbad" }

/-- LLM update parameters with malformed result text. -/
def llmBadPW : LlmParams :=
  { llmPW with
    operation := "update"
    updatedLlmResult := JsParam.text "\x7bbad" }

/-- Account parameters with malformed members text. -/
def accBadMembersPW : AccountParams := { accPW with members := "\x7bbad" }

/-- Schema parameters with malformed schema and validate text. -/
def schemaBadPW : SchemaParams :=
  { schemaPW with
    jsonSchema := JsParam.text "\x7bbad"
    validateData := JsParam.text "\x7bbad" }

/-- Knowledge-base parameters with malformed search filter text. -/
def kbBadSearchPW : KbParams := { kbPW with metadataFilter := JsParam.text "\x7bbad" }

/-- Knowledge-base parameters with malformed chat messages text. -/
def kbBadMsgPW : KbParams := { kbPW with messages := JsParam.text "\x7bbad" }

/-- Knowledge-base parameters with malformed chat filter text. -/
def kbBadChatFilterPW : KbParams :=
  { kbPW with chatMetadataFilter := JsParam.text "\x7bbad" }

/-- Per-item account update parameters: item 0 provides a name, item 1
provides no field at all. -/
def accUpdGetP : Nat → AccountParams
  | 0 => { accPW with operation := "updateUser", userNameUpdate := "x" }
  | _ => { accPW with operation := "updateUser" }

/-- A remote that answers every request with an empty (null) body. -/
def envNull : Env :=
  { http := fun _ => Except.ok Json.null, parseJson := fun _ => none,
    continueOnFail := false }

/-! ## Theorems: generic facts about the shared loop combinators -/

/-- Under continue-on-fail the loop never aborts: it produces exactly the
pointwise entries and the concatenated request trace. -/
theorem runItems_cof_eq (ann : Bool) (step : Nat → StepResult) :
    ∀ (n i : Nat), runItems true ann step i n = (reqsOf step i n, Except.ok (entriesOf step i n))
  | 0, i => by simp [runItems, reqsOf, entriesOf]
  | n + 1, i => by
    have ih := runItems_cof_eq ann step n (i + 1)
    simp only [runItems, reqsOf, entriesOf, entryAt]
    cases h : step i with
    | mk reqs res =>
      cases res with
      | ok j => simp [ih, h]
      | error e => simp [ih, h]

/-- `entriesOf` has one entry per processed item. -/
theorem entriesOf_length (step : Nat → StepResult) :
    ∀ (n i : Nat), (entriesOf step i n).length = n
  | 0, _ => rfl
  | n + 1, i => by simp [entriesOf, entriesOf_length step n (i + 1)]

/-- The `k`-th entry of `entriesOf` is the entry of item `i + k`. -/
theorem entriesOf_get (step : Nat → StepResult) :
    ∀ (n i k : Nat) (hk : k < (entriesOf step i n).length),
      (entriesOf step i n).get ⟨k, hk⟩ = entryAt step (i + k)
  | 0, i, k, hk => by simp [entriesOf] at hk
  | n + 1, i, k, hk => by
    cases k with
    | zero => simp [entriesOf]
    | succ m =>
      have := entriesOf_get step n (i + 1) m
      simp only [entriesOf, List.get_cons_succ]
      rw [this]
      ring_nf

/-- `pairedItem` of `entryAt` is the item index, whatever the step did. -/
theorem entryAt_pairedItem (step : Nat → StepResult) (j : Nat) :
    (entryAt step j).pairedItem = j := by
  unfold entryAt
  cases (step j).2 <;> rfl

/-- Whenever the loop finishes without aborting, it produced exactly one
entry per item, and entry `k` is paired with item `i + k`. -/
theorem runItems_ok_shape (cof ann : Bool) (step : Nat → StepResult) :
    ∀ (n i : Nat) (reqs : List HttpRequest) (es : List Entry),
      runItems cof ann step i n = (reqs, Except.ok es) →
      es.length = n ∧ ∀ k (hk : k < es.length), (es.get ⟨k, hk⟩).pairedItem = i + k
  | 0, i, reqs, es => by
    intro h
    simp [runItems] at h
    simp [h.2]
  | n + 1, i, reqs, es => by
    intro h
    simp only [runItems] at h
    cases hs : step i with
    | mk reqs1 res =>
      rw [hs] at h
      cases res with
      | ok j =>
        cases hrec : runItems cof ann step (i + 1) n with
        | mk reqs2 res2 =>
          rw [hrec] at h
          cases res2 with
          | ok es2 =>
            simp at h
            obtain ⟨he, hes⟩ := h
            have ih := runItems_ok_shape cof ann step n (i + 1) reqs2 es2 hrec
            subst hes
            refine ⟨by simp [ih.1], ?_⟩
            intro k hk
            cases k with
            | zero => rfl
            | succ m =>
              simp only [List.get_cons_succ]
              have := ih.2 m (by simpa using Nat.lt_of_succ_lt_succ (by simpa using hk))
              rw [this]
              ring_nf
          | error _ => simp at h
      | error e =>
        dsimp only at h
        by_cases hc : cof
        · rw [if_pos hc] at h
          cases hrec : runItems cof ann step (i + 1) n with
          | mk reqs2 res2 =>
            rw [hrec] at h
            cases res2 with
            | ok es2 =>
              simp at h
              obtain ⟨he, hes⟩ := h
              have ih := runItems_ok_shape cof ann step n (i + 1) reqs2 es2 hrec
              subst hes
              refine ⟨by simp [ih.1], ?_⟩
              intro k hk
              cases k with
              | zero => rfl
              | succ m =>
                simp only [List.get_cons_succ]
                have := ih.2 m (by simpa using Nat.lt_of_succ_lt_succ (by simpa using hk))
                rw [this]
                ring_nf
            | error _ => simp at h
        · rw [if_neg hc] at h
          simp at h

/-- With continue-on-fail disabled, the first failing item aborts the loop:
the trace stops with that item's requests and the error is re-thrown,
annotated with the item index exactly when the node's catch block annotates. -/
theorem runItems_abort (ann : Bool) (step : Nat → StepResult) :
    ∀ (j n i : Nat) (reqs : List HttpRequest) (e : ExecError),
      j < n →
      step (i + j) = (reqs, Except.error e) →
      (∀ k, k < j → ∃ v, (step (i + k)).2 = Except.ok v) →
      runItems false ann step i n =
        (reqsOf step i j ++ reqs, Except.error (if ann then setIdx (i + j) e else e))
  | 0, n, i, reqs, e => by
    intro hj hf _
    cases n with
    | zero => omega
    | succ m =>
      simp only [runItems, reqsOf]
      rw [show i + 0 = i from rfl] at hf
      rw [hf]
      simp
  | j + 1, n, i, reqs, e => by
    intro hj hf hok
    cases n with
    | zero => omega
    | succ m =>
      obtain ⟨v, hv⟩ := hok 0 (Nat.succ_pos j)
      simp only [runItems, reqsOf]
      cases hs : step i with
      | mk reqs1 res1 =>
        rw [show i + 0 = i from rfl] at hv
        rw [hs] at hv
        cases res1 with
        | error _ => simp at hv
        | ok w =>
          dsimp only
          have ih := runItems_abort ann step j m (i + 1) reqs e (by omega)
            (by rw [show i + 1 + j = i + (j + 1) from by omega]; exact hf)
            (by
              intro k hk
              rw [show i + 1 + k = i + (k + 1) from by omega]
              exact hok (k + 1) (by omega))
          rw [ih]
          rw [show i + 1 + j = i + (j + 1) from by omega]
          simp [List.append_assoc]

/-- Every request in the loop's trace was issued by some item's step. -/
theorem runItems_trace_mem (cof ann : Bool) (step : Nat → StepResult) :
    ∀ (n i : Nat) (r : HttpRequest), r ∈ (runItems cof ann step i n).1 →
      ∃ k, r ∈ (step k).1
  | 0, i, r => by simp [runItems]
  | n + 1, i, r => by
    intro hr
    simp only [runItems] at hr
    cases hs : step i with
    | mk reqs1 res1 =>
      rw [hs] at hr
      cases res1 with
      | ok j =>
        cases hrec : runItems cof ann step (i + 1) n with
        | mk reqs2 res2 =>
          rw [hrec] at hr
          cases res2 with
          | ok es =>
            simp at hr
            rcases hr with hr | hr
            · exact ⟨i, by rw [hs]; exact hr⟩
            · have := runItems_trace_mem cof ann step n (i + 1) r (by rw [hrec]; exact hr)
              exact this
          | error _ =>
            simp at hr
            rcases hr with hr | hr
            · exact ⟨i, by rw [hs]; exact hr⟩
            · have := runItems_trace_mem cof ann step n (i + 1) r (by rw [hrec]; exact hr)
              exact this
      | error e =>
        dsimp only at hr
        by_cases hc : cof
        · rw [if_pos hc] at hr
          cases hrec : runItems cof ann step (i + 1) n with
          | mk reqs2 res2 =>
            rw [hrec] at hr
            cases res2 with
            | ok es =>
              simp at hr
              rcases hr with hr | hr
              · exact ⟨i, by rw [hs]; exact hr⟩
              · have := runItems_trace_mem cof ann step n (i + 1) r (by rw [hrec]; exact hr)
                exact this
            | error _ =>
              simp at hr
              rcases hr with hr | hr
              · exact ⟨i, by rw [hs]; exact hr⟩
              · have := runItems_trace_mem cof ann step n (i + 1) r (by rw [hrec]; exact hr)
                exact this
        · rw [if_neg hc] at hr
          simp at hr
          exact ⟨i, by rw [hs]; exact hr⟩

/-- The trace of a run-once operation is exactly the action's trace. -/
theorem runOnce_trace (cof : Bool) (act : StepResult) : (runOnce cof act).1 = act.1 := by
  unfold runOnce
  cases act with
  | mk reqs res =>
    cases res with
    | ok j => rfl
    | error e => cases cof <;> rfl

/-- A run-once operation that does not abort yields exactly one entry,
associated with position 0. -/
theorem runOnce_ok_shape (cof : Bool) (act : StepResult) (reqs : List HttpRequest)
    (es : List Entry) (h : runOnce cof act = (reqs, Except.ok es)) : onceShape es := by
  unfold runOnce at h
  cases act with
  | mk reqs1 res1 =>
    cases res1 with
    | ok j =>
      simp at h
      rw [← h.2]
      refine ⟨rfl, ?_⟩
      intro k hk
      simp at hk
      subst hk
      rfl
    | error e =>
      cases cof with
      | false => simp at h
      | true =>
        simp at h
        rw [← h.2]
        refine ⟨rfl, ?_⟩
        intro k hk
        simp at hk
        subst hk
        rfl

/-- An organization-scoped resource URL is never the token-lookup URL. -/
theorem orgUrl_ne_tokenOrgUrl (o s : String) : orgUrl o s ≠ tokenOrgUrl := by
  intro h
  have h2 := congrArg String.data h
  simp [orgUrl, tokenOrgUrl, String.data_append] at h2

/-- Every request issued by the document node's per-item step targets an
organization-scoped resource URL (never the token-lookup endpoint). -/
theorem docStep_url (env : Env) (baseUrl orgId : String) (getP : Nat → DocParams)
    (items : List ItemInput) (op : String) (i : Nat) :
    ∀ r ∈ (DocRouterDocument.step env baseUrl orgId getP items op i).1,
      ∃ s, r.url = orgUrl orgId s := by
  intro r hr
  unfold DocRouterDocument.step at hr
  dsimp only at hr
  repeat' split at hr
  all_goals simp_all [httpCall]

/-- Same for the document node's whole-batch list action. -/
theorem docListOnce_url (env : Env) (baseUrl orgId : String) (p : DocParams) :
    ∀ r ∈ (DocRouterDocument.listOnce env baseUrl orgId p).1, ∃ s, r.url = orgUrl orgId s := by
  intro r hr
  unfold DocRouterDocument.listOnce at hr
  dsimp only at hr
  repeat' split at hr
  all_goals simp_all [httpCall]

/-- Every request issued by the tag node's per-item step is organization-scoped. -/
theorem tagStep_url (env : Env) (baseUrl orgId : String) (getP : Nat → TagParams)
    (op : String) (i : Nat) :
    ∀ r ∈ (DocRouterTag.step env baseUrl orgId getP op i).1, ∃ s, r.url = orgUrl orgId s := by
  intro r hr
  unfold DocRouterTag.step at hr
  dsimp only at hr
  repeat' split at hr
  all_goals simp_all [httpCall]

/-- Same for the tag node's whole-batch list action. -/
theorem tagListOnce_url (env : Env) (baseUrl orgId : String) (p : TagParams) :
    ∀ r ∈ (DocRouterTag.listOnce env baseUrl orgId p).1, ∃ s, r.url = orgUrl orgId s := by
  intro r hr
  unfold DocRouterTag.listOnce at hr
  dsimp only at hr
  repeat' split at hr
  all_goals simp_all [httpCall]

/-- Every request issued by the schema node's per-item step is organization-scoped. -/
theorem schemaStep_url (env : Env) (baseUrl orgId : String) (getP : Nat → SchemaParams)
    (op : String) (i : Nat) :
    ∀ r ∈ (DocRouterSchema.step env baseUrl orgId getP op i).1, ∃ s, r.url = orgUrl orgId s := by
  intro r hr
  unfold DocRouterSchema.step at hr
  dsimp only at hr
  repeat' split at hr
  all_goals simp_all [httpCall]

/-- Same for the schema node's three whole-batch actions. -/
theorem schemaOnce_url (env : Env) (baseUrl orgId : String) (p : SchemaParams) :
    (∀ r ∈ (DocRouterSchema.listOnce env baseUrl orgId p).1, ∃ s, r.url = orgUrl orgId s) ∧
    (∀ r ∈ (DocRouterSchema.listVersionsOnce env baseUrl orgId p).1, ∃ s, r.url = orgUrl orgId s) ∧
    (∀ r ∈ (DocRouterSchema.validateOnce env baseUrl orgId p).1, ∃ s, r.url = orgUrl orgId s) := by
  refine ⟨?_, ?_, ?_⟩ <;>
    (intro r hr
     first
       | unfold DocRouterSchema.listOnce at hr
       | unfold DocRouterSchema.listVersionsOnce at hr
       | unfold DocRouterSchema.validateOnce at hr
     try dsimp only at hr
     repeat' split at hr
     all_goals simp_all [httpCall])

/-- Every request issued by the LLM node's per-item step is organization-scoped. -/
theorem llmStep_url (env : Env) (baseUrl orgId : String) (getP : Nat → LlmParams)
    (op : String) (i : Nat) :
    ∀ r ∈ (DocRouterLLM.step env baseUrl orgId getP op i).1, ∃ s, r.url = orgUrl orgId s := by
  intro r hr
  unfold DocRouterLLM.step at hr
  dsimp only at hr
  repeat' split at hr
  all_goals simp_all [httpCall]

/-- Every request issued by the knowledge-base node's per-item step is
organization-scoped. -/
theorem kbStep_url (env : Env) (baseUrl orgId : String) (getP : Nat → KbParams)
    (op : String) (i : Nat) :
    ∀ r ∈ (DocRouterKnowledgeBase.step env baseUrl orgId getP op i).1,
      ∃ s, r.url = orgUrl orgId s := by
  intro r hr
  unfold DocRouterKnowledgeBase.step at hr
  dsimp only at hr
  repeat' split at hr
  all_goals simp_all [httpCall]

/-- Same for the knowledge-base node's whole-batch actions. -/
theorem kbOnce_url (env : Env) (baseUrl orgId : String) (p : KbParams) (raw : KbRaw)
    (op : String) :
    ∀ r ∈ (DocRouterKnowledgeBase.runOnceAct env baseUrl orgId p raw op).1,
      ∃ s, r.url = orgUrl orgId s := by
  intro r hr
  unfold DocRouterKnowledgeBase.runOnceAct at hr
  dsimp only at hr
  repeat' split at hr
  all_goals simp_all [httpCall]

/-- The trace of an organization-scoped invocation starts with the token
lookup, and that is its only lookup request, provided the continuation only
issues organization-scoped requests. -/
theorem withOrgContext_lookup_once (env : Env) (cred : Credential) (msg : String)
    (k : String → String → List HttpRequest × Except ExecError (List Entry))
    (hk : ∀ baseUrl orgId, ∀ r ∈ (k baseUrl orgId).1, ∃ s, r.url = orgUrl orgId s) :
    (withOrgContext env cred msg k).1.head? =
      some (orgLookupReq (resolveBaseUrl cred) cred.apiToken) ∧
    countLookups (withOrgContext env cred msg k).1 = 1 := by
  unfold withOrgContext
  dsimp only
  cases hh : env.http (orgLookupReq (resolveBaseUrl cred) cred.apiToken) with
  | error m =>
    dsimp only
    exact ⟨rfl, by simp [countLookups, orgLookupReq]⟩
  | ok tj =>
    dsimp only
    cases ho : orgIdFromResponse tj with
    | none =>
      dsimp only
      exact ⟨rfl, by simp [countLookups, orgLookupReq]⟩
    | some orgId =>
      dsimp only
      refine ⟨rfl, ?_⟩
      have hzero : countLookups (k (resolveBaseUrl cred) orgId).1 = 0 := by
        unfold countLookups
        rw [List.countP_eq_zero]
        intro r hr
        obtain ⟨s, hs⟩ := hk (resolveBaseUrl cred) orgId r hr
        simp [hs, orgUrl_ne_tokenOrgUrl]
      unfold countLookups at hzero ⊢
      simp [List.countP_cons, hzero, orgLookupReq]

/-- When the lookup response carries no usable `organization_id`, the
invocation stops with a configuration error after the single lookup request. -/
theorem withOrgContext_noOrg (env : Env) (cred : Credential) (msg : String)
    (k : String → String → List HttpRequest × Except ExecError (List Entry)) (tj : Json)
    (hhttp : env.http (orgLookupReq (resolveBaseUrl cred) cred.apiToken) = Except.ok tj)
    (hnone : orgIdFromResponse tj = none) :
    withOrgContext env cred msg k =
      ([orgLookupReq (resolveBaseUrl cred) cred.apiToken],
        Except.error { kind := ErrKind.configuration, message := msg, itemIndex := none }) := by
  unfold withOrgContext
  dsimp only
  rw [hhttp]
  dsimp only
  rw [hnone]

/-- The document node's post-lookup work only issues organization-scoped
requests. -/
theorem docCont_url (env : Env) (getP : Nat → DocParams) (items : List ItemInput)
    (op : String) (baseUrl orgId : String) :
    ∀ r ∈ (if op = "list" then
        runOnce env.continueOnFail (DocRouterDocument.listOnce env baseUrl orgId (getP 0))
      else
        runItems env.continueOnFail true
          (DocRouterDocument.step env baseUrl orgId getP items op) 0 items.length).1,
      ∃ s, r.url = orgUrl orgId s := by
  intro r hr
  split at hr
  · rw [runOnce_trace] at hr
    exact docListOnce_url env baseUrl orgId (getP 0) r hr
  · obtain ⟨k, hk⟩ := runItems_trace_mem _ _ _ _ _ r hr
    exact docStep_url env baseUrl orgId getP items op k r hk

/-- The tag node's post-lookup work only issues organization-scoped requests. -/
theorem tagCont_url (env : Env) (getP : Nat → TagParams) (items : List ItemInput)
    (op : String) (baseUrl orgId : String) :
    ∀ r ∈ (if op = "list" then
        runOnce env.continueOnFail (DocRouterTag.listOnce env baseUrl orgId (getP 0))
      else
        runItems env.continueOnFail true
          (DocRouterTag.step env baseUrl orgId getP op) 0 items.length).1,
      ∃ s, r.url = orgUrl orgId s := by
  intro r hr
  split at hr
  · rw [runOnce_trace] at hr
    exact tagListOnce_url env baseUrl orgId (getP 0) r hr
  · obtain ⟨k, hk⟩ := runItems_trace_mem _ _ _ _ _ r hr
    exact tagStep_url env baseUrl orgId getP op k r hk

/-- The schema node's post-lookup work only issues organization-scoped
requests. -/
theorem schemaCont_url (env : Env) (getP : Nat → SchemaParams) (items : List ItemInput)
    (op : String) (baseUrl orgId : String) :
    ∀ r ∈ (if op = "list" then
        runOnce env.continueOnFail (DocRouterSchema.listOnce env baseUrl orgId (getP 0))
      else if op = "listVersions" then
        runOnce env.continueOnFail (DocRouterSchema.listVersionsOnce env baseUrl orgId (getP 0))
      else if op = "validate" then
        runOnce env.continueOnFail (DocRouterSchema.validateOnce env baseUrl orgId (getP 0))
      else
        runItems env.continueOnFail true
          (DocRouterSchema.step env baseUrl orgId getP op) 0 items.length).1,
      ∃ s, r.url = orgUrl orgId s := by
  intro r hr
  split at hr
  · rw [runOnce_trace] at hr
    exact (schemaOnce_url env baseUrl orgId (getP 0)).1 r hr
  · split at hr
    · rw [runOnce_trace] at hr
      exact (schemaOnce_url env baseUrl orgId (getP 0)).2.1 r hr
    · split at hr
      · rw [runOnce_trace] at hr
        exact (schemaOnce_url env baseUrl orgId (getP 0)).2.2 r hr
      · obtain ⟨k, hk⟩ := runItems_trace_mem _ _ _ _ _ r hr
        exact schemaStep_url env baseUrl orgId getP op k r hk

/-- The knowledge-base node's post-lookup work only issues
organization-scoped requests. -/
theorem kbCont_url (env : Env) (getP : Nat → KbParams) (raw : KbRaw)
    (items : List ItemInput) (op : String) (baseUrl orgId : String) :
    ∀ r ∈ (if op ∈ kbRunOnceOps then
        runOnce env.continueOnFail
          (DocRouterKnowledgeBase.runOnceAct env baseUrl orgId (getP 0) raw op)
      else
        runItems env.continueOnFail true
          (DocRouterKnowledgeBase.step env baseUrl orgId getP op) 0 items.length).1,
      ∃ s, r.url = orgUrl orgId s := by
  intro r hr
  split at hr
  · rw [runOnce_trace] at hr
    exact kbOnce_url env baseUrl orgId (getP 0) raw op r hr
  · obtain ⟨k, hk⟩ := runItems_trace_mem _ _ _ _ _ r hr
    exact kbStep_url env baseUrl orgId getP op k r hk

/-- C3 (confirmed): for every per-organization operation (document, tag,
schema, LLM and knowledge-base nodes), the organization-id lookup via the
bearer token is the first request of the batch trace and occurs exactly once
per invocation; and when the lookup response carries no `organization_id`,
the invocation fails with a configuration error after that single lookup
request, so no resource endpoint is ever called. -/
theorem claimC3_org_lookup :
    (∀ (env : Env) (cred : Credential) (getP : Nat → DocParams) (items : List ItemInput),
      (DocRouterDocument.execute env cred getP items).1.head? =
        some (orgLookupReq (resolveBaseUrl cred) cred.apiToken) ∧
      countLookups (DocRouterDocument.execute env cred getP items).1 = 1) ∧
    (∀ (env : Env) (cred : Credential) (getP : Nat → DocParams) (items : List ItemInput)
      (tj : Json), env.http (orgLookupReq (resolveBaseUrl cred) cred.apiToken) = Except.ok tj →
      orgIdFromResponse tj = none →
      DocRouterDocument.execute env cred getP items =
        ([orgLookupReq (resolveBaseUrl cred) cred.apiToken],
          Except.error
            { kind := ErrKind.configuration,
              message := "Could not determine organization ID from token. Make sure you are using an organization-level API token.",
              itemIndex := none })) ∧
    (∀ (env : Env) (cred : Credential) (getP : Nat → TagParams) (items : List ItemInput),
      (DocRouterTag.execute env cred getP items).1.head? =
        some (orgLookupReq (resolveBaseUrl cred) cred.apiToken) ∧
      countLookups (DocRouterTag.execute env cred getP items).1 = 1) ∧
    (∀ (env : Env) (cred : Credential) (getP : Nat → TagParams) (items : List ItemInput)
      (tj : Json), env.http (orgLookupReq (resolveBaseUrl cred) cred.apiToken) = Except.ok tj →
      orgIdFromResponse tj = none →
      DocRouterTag.execute env cred getP items =
        ([orgLookupReq (resolveBaseUrl cred) cred.apiToken],
          Except.error
            { kind := ErrKind.configuration,
              message := "Could not determine organization ID from token. Use an organization-level API token.",
              itemIndex := none })) ∧
    (∀ (env : Env) (cred : Credential) (getP : Nat → SchemaParams) (items : List ItemInput),
      (DocRouterSchema.execute env cred getP items).1.head? =
        some (orgLookupReq (resolveBaseUrl cred) cred.apiToken) ∧
      countLookups (DocRouterSchema.execute env cred getP items).1 = 1) ∧
    (∀ (env : Env) (cred : Credential) (getP : Nat → SchemaParams) (items : List ItemInput)
      (tj : Json), env.http (orgLookupReq (resolveBaseUrl cred) cred.apiToken) = Except.ok tj →
      orgIdFromResponse tj = none →
      DocRouterSchema.execute env cred getP items =
        ([orgLookupReq (resolveBaseUrl cred) cred.apiToken],
          Except.error
            { kind := ErrKind.configuration,
              message := "Could not determine organization ID from token. Use an organization-level API token.",
              itemIndex := none })) ∧
    (∀ (env : Env) (cred : Credential) (getP : Nat → LlmParams) (items : List ItemInput),
      (DocRouterLLM.execute env cred getP items).1.head? =
        some (orgLookupReq (resolveBaseUrl cred) cred.apiToken) ∧
      countLookups (DocRouterLLM.execute env cred getP items).1 = 1) ∧
    (∀ (env : Env) (cred : Credential) (getP : Nat → LlmParams) (items : List ItemInput)
      (tj : Json), env.http (orgLookupReq (resolveBaseUrl cred) cred.apiToken) = Except.ok tj →
      orgIdFromResponse tj = none →
      DocRouterLLM.execute env cred getP items =
        ([orgLookupReq (resolveBaseUrl cred) cred.apiToken],
          Except.error
            { kind := ErrKind.configuration,
              message := "Could not determine organization ID from token. Use an organization-level API token.",
              itemIndex := none })) ∧
    (∀ (env : Env) (cred : Credential) (getP : Nat → KbParams) (raw : KbRaw)
      (items : List ItemInput),
      (DocRouterKnowledgeBase.execute env cred getP raw items).1.head? =
        some (orgLookupReq (resolveBaseUrl cred) cred.apiToken) ∧
      countLookups (DocRouterKnowledgeBase.execute env cred getP raw items).1 = 1) ∧
    (∀ (env : Env) (cred : Credential) (getP : Nat → KbParams) (raw : KbRaw)
      (items : List ItemInput) (tj : Json),
      env.http (orgLookupReq (resolveBaseUrl cred) cred.apiToken) = Except.ok tj →
      orgIdFromResponse tj = none →
      DocRouterKnowledgeBase.execute env cred getP raw items =
        ([orgLookupReq (resolveBaseUrl cred) cred.apiToken],
          Except.error
            { kind := ErrKind.configuration,
              message := "Could not determine organization ID from token. Use an organization-level API token.",
              itemIndex := none })) := by
  refine ⟨?_, ?_, ?_, ?_, ?_, ?_, ?_, ?_, ?_, ?_⟩
  · intro env cred getP items
    exact withOrgContext_lookup_once env cred _ _
      (fun b o => docCont_url env getP items (getP 0).operation b o)
  · intro env cred getP items tj h1 h2
    unfold DocRouterDocument.execute
    exact withOrgContext_noOrg env cred _ _ tj h1 h2
  · intro env cred getP items
    exact withOrgContext_lookup_once env cred _ _
      (fun b o => tagCont_url env getP items (getP 0).operation b o)
  · intro env cred getP items tj h1 h2
    unfold DocRouterTag.execute
    exact withOrgContext_noOrg env cred _ _ tj h1 h2
  · intro env cred getP items
    exact withOrgContext_lookup_once env cred _ _
      (fun b o => schemaCont_url env getP items (getP 0).operation b o)
  · intro env cred getP items tj h1 h2
    unfold DocRouterSchema.execute
    exact withOrgContext_noOrg env cred _ _ tj h1 h2
  · intro env cred getP items
    exact withOrgContext_lookup_once env cred _ _
      (fun b o r hr => by
        obtain ⟨k, hk⟩ := runItems_trace_mem _ _ _ _ _ r hr
        exact llmStep_url env b o getP (getP 0).operation k r hk)
  · intro env cred getP items tj h1 h2
    unfold DocRouterLLM.execute
    exact withOrgContext_noOrg env cred _ _ tj h1 h2
  · intro env cred getP raw items
    exact withOrgContext_lookup_once env cred _ _
      (fun b o => kbCont_url env getP raw items (getP 0).operation b o)
  · intro env cred getP raw items tj h1 h2
    unfold DocRouterKnowledgeBase.execute
    exact withOrgContext_noOrg env cred _ _ tj h1 h2

/-- Witness for C3: with a lookup response lacking `organization_id`, each of
the five organization-scoped nodes stops with the configuration error after
the single lookup request. -/
theorem claimC3_witness :
    (DocRouterDocument.execute envNoOrg credW (fun _ => docPW) [itemB] =
      ([orgLookupReq (resolveBaseUrl credW) credW.apiToken],
        Except.error
          { kind := ErrKind.configuration,
            message := "Could not determine organization ID from token. Make sure you are using an organization-level API token.",
            itemIndex := none })) ∧
    (DocRouterTag.execute envNoOrg credW (fun _ => tagPW) [itemN] =
      ([orgLookupReq (resolveBaseUrl credW) credW.apiToken],
        Except.error
          { kind := ErrKind.configuration,
            message := "Could not determine organization ID from token. Use an organization-level API token.",
            itemIndex := none })) ∧
    (DocRouterSchema.execute envNoOrg credW (fun _ => schemaPW) [itemN] =
      ([orgLookupReq (resolveBaseUrl credW) credW.apiToken],
        Except.error
          { kind := ErrKind.configuration,
            message := "Could not determine organization ID from token. Use an organization-level API token.",
            itemIndex := none })) ∧
    (DocRouterLLM.execute envNoOrg credW (fun _ => llmPW) [itemN] =
      ([orgLookupReq (resolveBaseUrl credW) credW.apiToken],
        Except.error
          { kind := ErrKind.configuration,
            message := "Could not determine organization ID from token. Use an organization-level API token.",
            itemIndex := none })) ∧
    (DocRouterKnowledgeBase.execute envNoOrg credW (fun _ => kbPW) kbRawW [itemN] =
      ([orgLookupReq (resolveBaseUrl credW) credW.apiToken],
        Except.error
          { kind := ErrKind.configuration,
            message := "Could not determine organization ID from token. Use an organization-level API token.",
            itemIndex := none })) :=
  ⟨claimC3_org_lookup.2.1 envNoOrg credW (fun _ => docPW) [itemB] (Json.obj []) rfl rfl,
    claimC3_org_lookup.2.2.2.1 envNoOrg credW (fun _ => tagPW) [itemN] (Json.obj []) rfl rfl,
    claimC3_org_lookup.2.2.2.2.2.1 envNoOrg credW (fun _ => schemaPW) [itemN]
      (Json.obj []) rfl rfl,
    claimC3_org_lookup.2.2.2.2.2.2.2.1 envNoOrg credW (fun _ => llmPW) [itemN]
      (Json.obj []) rfl rfl,
    claimC3_org_lookup.2.2.2.2.2.2.2.2.2 envNoOrg credW (fun _ => kbPW) kbRawW [itemN]
      (Json.obj []) rfl rfl⟩

/-- When an organization-scoped invocation returns a result array, the lookup
succeeded and the remaining trace and the result come from the post-lookup
continuation. -/
theorem withOrgContext_ok (env : Env) (cred : Credential) (msg : String)
    (k : String → String → List HttpRequest × Except ExecError (List Entry))
    (reqs : List HttpRequest) (es : List Entry)
    (h : withOrgContext env cred msg k = (reqs, Except.ok es)) :
    ∃ orgId, k (resolveBaseUrl cred) orgId = ((k (resolveBaseUrl cred) orgId).1, Except.ok es) ∧
      reqs = orgLookupReq (resolveBaseUrl cred) cred.apiToken ::
        (k (resolveBaseUrl cred) orgId).1 := by
  unfold withOrgContext at h
  dsimp only at h
  cases hh : env.http (orgLookupReq (resolveBaseUrl cred) cred.apiToken) with
  | error m =>
    rw [hh] at h
    simp at h
  | ok tj =>
    rw [hh] at h
    dsimp only at h
    cases ho : orgIdFromResponse tj with
    | none =>
      rw [ho] at h
      simp at h
    | some orgId =>
      rw [ho] at h
      dsimp only at h
      have h1 := congrArg Prod.fst h
      have h2 := congrArg Prod.snd h
      dsimp only at h1 h2
      exact ⟨orgId, by rw [← h2], h1.symm⟩

/-- C1 (amended): whenever an `execute` invocation returns a result array,
each per-item operation yields exactly one entry per input item at matching
positions, and each batch-level operation yields exactly one aggregate entry
paired with index 0 — where the batch-level set is `list` for the document
and tag nodes; `list`, `listVersions` and `validate` for the schema node;
`list`/`listDocuments`/`listChunks`/`search`/`chat`/`reconcile`/`reconcileAll`
for the knowledge-base node; and `listUsers`/`listOrganizations`/`getUser`/
`getOrganization` for the account node (so `get`-style operations of the
account node and `validate` of the schema node are batch-level, contrary to
the original claim). For the document node's `list`, the trace is exactly the
lookup plus one resource call, whatever the item count. -/
theorem claimC1_amended :
    (∀ (env : Env) (cred : Credential) (getP : Nat → DocParams) (items : List ItemInput)
      (reqs : List HttpRequest) (es : List Entry),
      DocRouterDocument.execute env cred getP items = (reqs, Except.ok es) →
      ((getP 0).operation ∈ docOnceOps → onceShape es ∧ reqs.length = 2) ∧
      ((getP 0).operation ∈ docItemOps → perItemShape items.length es)) ∧
    (∀ (env : Env) (cred : Credential) (getP : Nat → TagParams) (items : List ItemInput)
      (reqs : List HttpRequest) (es : List Entry),
      DocRouterTag.execute env cred getP items = (reqs, Except.ok es) →
      ((getP 0).operation ∈ tagOnceOps → onceShape es) ∧
      ((getP 0).operation ∈ tagItemOps → perItemShape items.length es)) ∧
    (∀ (env : Env) (cred : Credential) (getP : Nat → SchemaParams) (items : List ItemInput)
      (reqs : List HttpRequest) (es : List Entry),
      DocRouterSchema.execute env cred getP items = (reqs, Except.ok es) →
      ((getP 0).operation ∈ schemaOnceOps → onceShape es) ∧
      ((getP 0).operation ∈ schemaItemOps → perItemShape items.length es)) ∧
    (∀ (env : Env) (cred : Credential) (getP : Nat → LlmParams) (items : List ItemInput)
      (reqs : List HttpRequest) (es : List Entry),
      DocRouterLLM.execute env cred getP items = (reqs, Except.ok es) →
      (getP 0).operation ∈ llmItemOps → perItemShape items.length es) ∧
    (∀ (env : Env) (cred : Credential) (getP : Nat → DcrParams) (items : List ItemInput)
      (reqs : List HttpRequest) (es : List Entry),
      DocRouter.execute env cred getP items = (reqs, Except.ok es) →
      (getP 0).operation = "upload" → perItemShape items.length es) ∧
    (∀ (env : Env) (cred : Credential) (getP : Nat → AccountParams) (raw : AccountRaw)
      (items : List ItemInput) (reqs : List HttpRequest) (es : List Entry),
      DocRouterAccount.execute env cred getP raw items = (reqs, Except.ok es) →
      ((getP 0).operation ∈ accountRunOnceOps → onceShape es) ∧
      ((getP 0).operation ∈ accountItemOps → perItemShape items.length es)) ∧
    (∀ (env : Env) (cred : Credential) (getP : Nat → KbParams) (raw : KbRaw)
      (items : List ItemInput) (reqs : List HttpRequest) (es : List Entry),
      DocRouterKnowledgeBase.execute env cred getP raw items = (reqs, Except.ok es) →
      ((getP 0).operation ∈ kbRunOnceOps → onceShape es) ∧
      ((getP 0).operation ∈ kbItemOps → perItemShape items.length es)) := by
  refine ⟨?_, ?_, ?_, ?_, ?_, ?_, ?_⟩
  · intro env cred getP items reqs es h
    unfold DocRouterDocument.execute at h
    obtain ⟨orgId, hk, hreqs⟩ := withOrgContext_ok _ _ _ _ _ _ h
    try dsimp only at hk hreqs
    constructor
    · intro hop
      simp only [docOnceOps, List.mem_singleton] at hop
      rw [hop] at hk hreqs
      rw [if_pos rfl] at hk hreqs
      refine ⟨runOnce_ok_shape _ _ _ _ hk, ?_⟩
      rw [hreqs, runOnce_trace]
      rfl
    · intro hop
      simp only [docItemOps, List.mem_cons, List.mem_singleton, List.not_mem_nil,
        or_false] at hop
      rcases hop with hcase | hcase | hcase | hcase <;>
        (rw [hcase] at hk
         rw [if_neg (by decide)] at hk
         have hs := runItems_ok_shape _ _ _ _ _ _ _ hk
         exact ⟨hs.1, fun kk hkk => by simpa using hs.2 kk hkk⟩)
  · intro env cred getP items reqs es h
    unfold DocRouterTag.execute at h
    obtain ⟨orgId, hk, hreqs⟩ := withOrgContext_ok _ _ _ _ _ _ h
    try dsimp only at hk
    constructor
    · intro hop
      simp only [tagOnceOps, List.mem_singleton] at hop
      rw [hop] at hk
      rw [if_pos rfl] at hk
      exact runOnce_ok_shape _ _ _ _ hk
    · intro hop
      simp only [tagItemOps, List.mem_cons, List.mem_singleton, List.not_mem_nil,
        or_false] at hop
      rcases hop with hcase | hcase | hcase | hcase <;>
        (rw [hcase] at hk
         rw [if_neg (by decide)] at hk
         have hs := runItems_ok_shape _ _ _ _ _ _ _ hk
         exact ⟨hs.1, fun kk hkk => by simpa using hs.2 kk hkk⟩)
  · intro env cred getP items reqs es h
    unfold DocRouterSchema.execute at h
    obtain ⟨orgId, hk, hreqs⟩ := withOrgContext_ok _ _ _ _ _ _ h
    try dsimp only at hk
    constructor
    · intro hop
      simp only [schemaOnceOps, List.mem_cons, List.mem_singleton, List.not_mem_nil,
        or_false] at hop
      rcases hop with hcase | hcase | hcase <;>
        (rw [hcase] at hk
         rw [if_pos rfl] at hk
         exact runOnce_ok_shape _ _ _ _ hk)
    · intro hop
      simp only [schemaItemOps, List.mem_cons, List.mem_singleton, List.not_mem_nil,
        or_false] at hop
      rcases hop with hcase | hcase | hcase | hcase <;>
        (rw [hcase] at hk
         rw [if_neg (by decide), if_neg (by decide), if_neg (by decide)] at hk
         have hs := runItems_ok_shape _ _ _ _ _ _ _ hk
         exact ⟨hs.1, fun kk hkk => by simpa using hs.2 kk hkk⟩)
  · intro env cred getP items reqs es h
    unfold DocRouterLLM.execute at h
    obtain ⟨orgId, hk, hreqs⟩ := withOrgContext_ok _ _ _ _ _ _ h
    try dsimp only at hk
    intro hop
    have hs := runItems_ok_shape _ _ _ _ _ _ _ hk
    exact ⟨hs.1, fun kk hkk => by simpa using hs.2 kk hkk⟩
  · intro env cred getP items reqs es h hop
    unfold DocRouter.execute at h
    try dsimp only at h
    rw [hop] at h
    rw [if_neg (by decide)] at h
    have hs := runItems_ok_shape _ _ _ _ _ _ _ h
    exact ⟨hs.1, fun kk hkk => by simpa using hs.2 kk hkk⟩
  · intro env cred getP raw items reqs es h
    unfold DocRouterAccount.execute at h
    try dsimp only at h
    constructor
    · intro hop
      rw [if_pos hop] at h
      exact runOnce_ok_shape _ _ _ _ h
    · intro hop
      simp only [accountItemOps, List.mem_cons, List.mem_singleton, List.not_mem_nil,
        or_false] at hop
      rcases hop with hcase | hcase | hcase | hcase | hcase | hcase <;>
        (rw [hcase] at h
         rw [if_neg (by decide)] at h
         have hs := runItems_ok_shape _ _ _ _ _ _ _ h
         exact ⟨hs.1, fun kk hkk => by simpa using hs.2 kk hkk⟩)
  · intro env cred getP raw items reqs es h
    unfold DocRouterKnowledgeBase.execute at h
    obtain ⟨orgId, hk, hreqs⟩ := withOrgContext_ok _ _ _ _ _ _ h
    try dsimp only at hk
    constructor
    · intro hop
      rw [if_pos hop] at hk
      exact runOnce_ok_shape _ _ _ _ hk
    · intro hop
      simp only [kbItemOps, List.mem_cons, List.mem_singleton, List.not_mem_nil,
        or_false] at hop
      rcases hop with hcase | hcase | hcase | hcase <;>
        (rw [hcase] at hk
         rw [if_neg (by decide)] at hk
         have hs := runItems_ok_shape _ _ _ _ _ _ _ hk
         exact ⟨hs.1, fun kk hkk => by simpa using hs.2 kk hkk⟩)

/-- C1 counterexample: the account node runs `getUser` once for the whole
batch — a 2-item batch produces a single aggregate entry paired with index 0,
not one entry per input item as the claim states for `get` operations. -/
theorem claimC1_counterexample :
    ∃ es, (DocRouterAccount.execute (envW false) credW
        (fun _ => { accPW with operation := "getUser" }) accRawW [itemN, itemN]).2 =
        Except.ok es ∧ es.length = 1 ∧ [itemN, itemN].length = 2 :=
  ⟨[{ json := orgOkJson, pairedItem := 0, err := none }], rfl, rfl, rfl⟩

/-- Witness for C1: concrete 2-item invocations of every node, checking the
per-item shape for per-item operations and the single-aggregate shape for
batch-level ones (including the account node's `getUser` and the schema
node's `validate`). -/
theorem claimC1_witness :
    (∃ reqs es, DocRouterDocument.execute (envW false) credW
        (fun _ => { docPW with operation := "list" }) [itemN, itemN] =
        (reqs, Except.ok es) ∧ onceShape es ∧ reqs.length = 2) ∧
    (∃ reqs es, DocRouterDocument.execute (envW false) credW
        (fun _ => { docPW with operation := "delete" }) [itemN, itemN] =
        (reqs, Except.ok es) ∧ perItemShape 2 es) ∧
    (∃ reqs es, DocRouterTag.execute (envW false) credW
        (fun _ => { tagPW with operation := "list" }) [itemN, itemN] =
        (reqs, Except.ok es) ∧ onceShape es) ∧
    (∃ reqs es, DocRouterTag.execute (envW false) credW
        (fun _ => { tagPW with operation := "get" }) [itemN, itemN] =
        (reqs, Except.ok es) ∧ perItemShape 2 es) ∧
    (∃ reqs es, DocRouterSchema.execute (envW false) credW
        (fun _ => { schemaPW with operation := "validate" }) [itemN, itemN] =
        (reqs, Except.ok es) ∧ onceShape es) ∧
    (∃ reqs es, DocRouterSchema.execute (envW false) credW
        (fun _ => { schemaPW with operation := "get" }) [itemN, itemN] =
        (reqs, Except.ok es) ∧ perItemShape 2 es) ∧
    (∃ reqs es, DocRouterLLM.execute (envW false) credW
        (fun _ => { llmPW with operation := "run" }) [itemN, itemN] =
        (reqs, Except.ok es) ∧ perItemShape 2 es) ∧
    (∃ reqs es, DocRouter.execute (envW false) credW (fun _ => dcrPW) [itemB, itemB] =
        (reqs, Except.ok es) ∧ perItemShape 2 es) ∧
    (∃ reqs es, DocRouterAccount.execute (envW false) credW
        (fun _ => { accPW with operation := "getUser" }) accRawW [itemN, itemN] =
        (reqs, Except.ok es) ∧ onceShape es) ∧
    (∃ reqs es, DocRouterAccount.execute (envW false) credW
        (fun _ => { accPW with operation := "deleteUser" }) accRawW [itemN, itemN] =
        (reqs, Except.ok es) ∧ perItemShape 2 es) ∧
    (∃ reqs es, DocRouterKnowledgeBase.execute (envW false) credW
        (fun _ => { kbPW with operation := "list" }) kbRawW [itemN, itemN] =
        (reqs, Except.ok es) ∧ onceShape es) ∧
    (∃ reqs es, DocRouterKnowledgeBase.execute (envW false) credW
        (fun _ => { kbPW with operation := "get" }) kbRawW [itemN, itemN] =
        (reqs, Except.ok es) ∧ perItemShape 2 es) :=
  by
  refine ⟨⟨_, _, rfl, ?_⟩, ⟨_, _, rfl, ?_⟩, ⟨_, _, rfl, ?_⟩, ⟨_, _, rfl, ?_⟩,
    ⟨_, _, rfl, ?_⟩, ⟨_, _, rfl, ?_⟩, ⟨_, _, rfl, ?_⟩, ⟨_, _, rfl, ?_⟩,
    ⟨_, _, rfl, ?_⟩, ⟨_, _, rfl, ?_⟩, ⟨_, _, rfl, ?_⟩, ⟨_, _, rfl, ?_⟩⟩
  · exact (claimC1_amended.1 (envW false) credW
      (fun _ => { docPW with operation := "list" }) [itemN, itemN] _ _ rfl).1 (by decide)
  · exact (claimC1_amended.1 (envW false) credW
      (fun _ => { docPW with operation := "delete" }) [itemN, itemN] _ _ rfl).2 (by decide)
  · exact (claimC1_amended.2.1 (envW false) credW
      (fun _ => { tagPW with operation := "list" }) [itemN, itemN] _ _ rfl).1 (by decide)
  · exact (claimC1_amended.2.1 (envW false) credW
      (fun _ => { tagPW with operation := "get" }) [itemN, itemN] _ _ rfl).2 (by decide)
  · exact (claimC1_amended.2.2.1 (envW false) credW
      (fun _ => { schemaPW with operation := "validate" }) [itemN, itemN] _ _ rfl).1 (by decide)
  · exact (claimC1_amended.2.2.1 (envW false) credW
      (fun _ => { schemaPW with operation := "get" }) [itemN, itemN] _ _ rfl).2 (by decide)
  · exact claimC1_amended.2.2.2.1 (envW false) credW
      (fun _ => { llmPW with operation := "run" }) [itemN, itemN] _ _ rfl (by decide)
  · exact claimC1_amended.2.2.2.2.1 (envW false) credW (fun _ => dcrPW) [itemB, itemB]
      _ _ rfl rfl
  · exact (claimC1_amended.2.2.2.2.2.1 (envW false) credW
      (fun _ => { accPW with operation := "getUser" }) accRawW [itemN, itemN] _ _ rfl).1
      (by decide)
  · exact (claimC1_amended.2.2.2.2.2.1 (envW false) credW
      (fun _ => { accPW with operation := "deleteUser" }) accRawW [itemN, itemN] _ _ rfl).2
      (by decide)
  · exact (claimC1_amended.2.2.2.2.2.2 (envW false) credW
      (fun _ => { kbPW with operation := "list" }) kbRawW [itemN, itemN] _ _ rfl).1
      (by decide)
  · exact (claimC1_amended.2.2.2.2.2.2 (envW false) credW
      (fun _ => { kbPW with operation := "get" }) kbRawW [itemN, itemN] _ _ rfl).2
      (by decide)

/-- C2 counterexample: a document-node `update` with zero provided fields
does not fail — it issues a PUT whose body is the empty object, so no
`ValidationError` is raised before the request. -/
theorem claimC2_counterexample :
    DocRouterDocument.step (envW false) "https://app.docrouter.ai/fastapi" "org1"
      (fun _ => { docPW with operation := "update", metadata := JsParam.text "" })
      [itemN] "update" 0 =
      ([{ method := "PUT", baseURL := "https://app.docrouter.ai/fastapi",
          url := orgUrl "org1" "/documents/D1", qs := [], body := some (Json.obj []) }],
        Except.ok orgOkJson) := rfl

/-- C2 (amended): sparse-patch semantics hold for the document node's update
(only explicitly provided fields appear in the body) and for the account
node's user update, and the zero-fields `ValidationError` guard exists only
on the account node's user update, where it fires before any request; the
document update and the account organization update instead issue a PUT with
an empty body, and the tag update always sends its (possibly empty) `name`. -/
theorem claimC2_amended :
    (∀ (env : Env) (baseUrl orgId : String) (getP : Nat → DocParams)
      (items : List ItemInput) (i : Nat),
      (getP i).newDocumentName = "" → (getP i).tagIds = "" →
      (getP i).metadata = JsParam.text "" →
      (DocRouterDocument.step env baseUrl orgId getP items "update" i).1 =
        [{ method := "PUT", baseURL := baseUrl,
            url := orgUrl orgId ("/documents/" ++ (getP i).documentId), qs := [],
            body := some (Json.obj []) }]) ∧
    (∀ (env : Env) (p : DocParams) (m : List (String × Json)),
      p.metadata = JsParam.obj (Json.obj m) →
      docUpdateBody env p = Except.ok (Json.obj
        ((if p.newDocumentName ≠ "" then [("document_name", Json.str p.newDocumentName)] else [])
          ++ (if p.tagIds ≠ "" then
                [("tag_ids", Json.arr ((((p.tagIds.jsSplitComma).map String.jsTrim).filter
                  (fun t => t ≠ "")).map Json.str))]
              else [])
          ++ (if m.length > 0 then [("metadata", Json.obj m)] else [])))) ∧
    (∀ (env : Env) (baseUrl : String) (getP : Nat → AccountParams) (raw : AccountRaw) (i : Nat),
      (getP i).userNameUpdate = "" → (getP i).passwordUpdate = "" →
      raw.role = none → raw.emailVerified = none → raw.hasSeenTour = none →
      DocRouterAccount.step env baseUrl getP raw "updateUser" i =
        ([], Except.error
          { kind := ErrKind.validation,
            message := "Provide at least one field to update (name, password, role, email verified, or has seen tour).",
            itemIndex := none })) ∧
    (∀ (env : Env) (baseUrl : String) (getP : Nat → AccountParams) (raw : AccountRaw) (i : Nat),
      (getP i).orgNameUpdate = "" → raw.orgTypeUpdate = none → (getP i).members = "" →
      (DocRouterAccount.step env baseUrl getP raw "updateOrganization" i).1 =
        [{ method := "PUT", baseURL := baseUrl,
            url := "/v0/account/organizations/" ++ (getP i).organizationId.jsTrim, qs := [],
            body := some (Json.obj []) }]) ∧
    (∀ (env : Env) (baseUrl orgId : String) (getP : Nat → TagParams) (i : Nat),
      (getP i).tagName = "" → (getP i).color = "" → (getP i).description = "" →
      (DocRouterTag.step env baseUrl orgId getP "update" i).1 =
        [{ method := "PUT", baseURL := baseUrl,
            url := orgUrl orgId ("/tags/" ++ (getP i).tagId), qs := [],
            body := some (Json.obj [("name", Json.str "")]) }]) := by
  refine ⟨?_, ?_, ?_, ?_, ?_⟩
  · intro env baseUrl orgId getP items i h1 h2 h3
    simp [DocRouterDocument.step, docUpdateBody, h1, h2, h3, httpCall]
  · intro env p m hm
    simp [docUpdateBody, parseJsParam, hm, Json.keysCount]
  · intro env baseUrl getP raw i h1 h2 h3 h4 h5
    simp [DocRouterAccount.step, accountUpdateUserBody, h1, h2, h3, h4, h5]
  · intro env baseUrl getP raw i h1 h2 h3
    simp [DocRouterAccount.step, accountUpdateOrgBody, h1, h2, h3, httpCall,
      show ("" : String).jsTrim = "" from rfl]
  · intro env baseUrl orgId getP i h1 h2 h3
    simp [DocRouterTag.step, tagBody, h1, h2, h3, httpCall,
      show ("" : String).jsTrim = "" from rfl]

/-- Witness for C2 at concrete inputs: a zero-field document update issues an
empty-body PUT; a one-field document update sends exactly that field; a
zero-field account user update fails with the validation error and issues no
request; a zero-field account organization update issues an empty-body PUT;
and a blank tag update still sends `name`. -/
theorem claimC2_witness :
    ((DocRouterDocument.step (envW false) "B" "org1" (fun _ => docUpdZeroPW)
        [itemN] "update" 0).1 =
      [{ method := "PUT", baseURL := "B", url := orgUrl "org1" "/documents/D1", qs := [],
          body := some (Json.obj []) }]) ∧
    (docUpdateBody (envW false) docUpdNamePW =
      Except.ok (Json.obj [("document_name", Json.str "N"),
        ("metadata", Json.obj [("a", Json.str "b")])])) ∧
    (DocRouterAccount.step (envW false) "B" (fun _ => accPW) accRawW "updateUser" 0 =
      ([], Except.error
        { kind := ErrKind.validation,
          message := "Provide at least one field to update (name, password, role, email verified, or has seen tour).",
          itemIndex := none })) ∧
    ((DocRouterAccount.step (envW false) "B" (fun _ => accPW) accRawW
        "updateOrganization" 0).1 =
      [{ method := "PUT", baseURL := "B", url := "/v0/account/organizations/O1", qs := [],
          body := some (Json.obj []) }]) ∧
    ((DocRouterTag.step (envW false) "B" "org1" (fun _ => tagBlankPW)
        "update" 0).1 =
      [{ method := "PUT", baseURL := "B", url := orgUrl "org1" "/tags/T1", qs := [],
          body := some (Json.obj [("name", Json.str "")]) }]) :=
  ⟨claimC2_amended.1 (envW false) "B" "org1" (fun _ => docUpdZeroPW) [itemN] 0 rfl rfl rfl,
    claimC2_amended.2.1 (envW false) docUpdNamePW [("a", Json.str "b")] (by rfl),
    claimC2_amended.2.2.1 (envW false) "B" (fun _ => accPW) accRawW 0 rfl rfl rfl rfl rfl,
    claimC2_amended.2.2.2.1 (envW false) "B" (fun _ => accPW) accRawW 0 rfl rfl rfl,
    claimC2_amended.2.2.2.2 (envW false) "B" "org1" (fun _ => tagBlankPW) 0 rfl rfl rfl⟩

/-- C4 (confirmed): for every operation taking a free-form JSON text field
(document metadata on upload and update, the upload-only node's metadata, the
updated LLM result, the account organization members, the schema definition
on create/update, the data to validate, and the knowledge-base search/chat
metadata filters and chat messages), malformed JSON text makes the item's
processing fail with a validation-class error and no request is issued by
that processing. -/
theorem claimC4_malformed_json :
    (∀ (env : Env) (baseUrl orgId : String) (getP : Nat → DocParams)
      (items : List ItemInput) (i : Nat) (b : BinaryData) (s : String),
      binaryOf items i (getP i).binaryPropertyName = some b →
      (getP i).metadata = JsParam.text s → s ≠ "" → env.parseJson s = none →
      failsBeforeAnyRequest (DocRouterDocument.step env baseUrl orgId getP items "upload" i)) ∧
    (∀ (env : Env) (baseUrl orgId : String) (getP : Nat → DocParams)
      (items : List ItemInput) (i : Nat) (s : String),
      (getP i).metadata = JsParam.text s → s ≠ "" → env.parseJson s = none →
      failsBeforeAnyRequest (DocRouterDocument.step env baseUrl orgId getP items "update" i)) ∧
    (∀ (env : Env) (baseUrl : String) (p : DcrParams) (items : List ItemInput)
      (i : Nat) (b : BinaryData) (s : String),
      binaryOf items i p.binaryPropertyName = some b →
      p.metadata = JsParam.text s → s ≠ "" → env.parseJson s = none →
      failsBeforeAnyRequest (DocRouter.step env baseUrl p items i)) ∧
    (∀ (env : Env) (baseUrl orgId : String) (getP : Nat → LlmParams) (i : Nat) (s : String),
      (getP i).updatedLlmResult = JsParam.text s → s ≠ "" → env.parseJson s = none →
      failsBeforeAnyRequest (DocRouterLLM.step env baseUrl orgId getP "update" i)) ∧
    (∀ (env : Env) (baseUrl : String) (getP : Nat → AccountParams) (raw : AccountRaw) (i : Nat),
      (getP i).members.jsTrim ≠ "" → env.parseJson ((getP i).members.jsTrim) = none →
      failsBeforeAnyRequest (DocRouterAccount.step env baseUrl getP raw "updateOrganization" i)) ∧
    (∀ (env : Env) (baseUrl orgId : String) (getP : Nat → SchemaParams) (i : Nat) (s : String),
      (getP i).jsonSchema = JsParam.text s → s ≠ "" → env.parseJson s = none →
      failsBeforeAnyRequest (DocRouterSchema.step env baseUrl orgId getP "create" i) ∧
      failsBeforeAnyRequest (DocRouterSchema.step env baseUrl orgId getP "update" i)) ∧
    (∀ (env : Env) (baseUrl orgId : String) (p : SchemaParams) (s : String),
      p.validateData = JsParam.text s → s ≠ "" → env.parseJson s = none →
      failsBeforeAnyRequest (DocRouterSchema.validateOnce env baseUrl orgId p)) ∧
    (∀ (env : Env) (baseUrl orgId : String) (p : KbParams) (raw : KbRaw) (s : String),
      p.metadataFilter = JsParam.text s → s ≠ "" → env.parseJson s = none →
      failsBeforeAnyRequest (DocRouterKnowledgeBase.runOnceAct env baseUrl orgId p raw "search")) ∧
    (∀ (env : Env) (baseUrl orgId : String) (p : KbParams) (raw : KbRaw) (s : String),
      p.messages = JsParam.text s → s ≠ "" → env.parseJson s = none →
      failsBeforeAnyRequest (DocRouterKnowledgeBase.runOnceAct env baseUrl orgId p raw "chat")) ∧
    (∀ (env : Env) (baseUrl orgId : String) (p : KbParams) (raw : KbRaw) (mv : Json) (s : String),
      p.messages = JsParam.obj mv → p.chatMetadataFilter = JsParam.text s → s ≠ "" →
      env.parseJson s = none →
      failsBeforeAnyRequest (DocRouterKnowledgeBase.runOnceAct env baseUrl orgId p raw "chat")) := by
  refine ⟨?_, ?_, ?_, ?_, ?_, ?_, ?_, ?_, ?_, ?_⟩
  · intro env baseUrl orgId getP items i b s hb hm hs hp
    unfold failsBeforeAnyRequest
    simp [DocRouterDocument.step, parseJsParam, strOr, hb, hm, hs, hp, jsonSyntaxError]
  · intro env baseUrl orgId getP items i s hm hs hp
    unfold failsBeforeAnyRequest
    simp [DocRouterDocument.step, docUpdateBody, parseJsParam, strOr, hm, hs, hp, jsonSyntaxError]
  · intro env baseUrl p items i b s hb hm hs hp
    unfold failsBeforeAnyRequest
    simp [DocRouter.step, parseJsParam, strOr, hb, hm, hs, hp, jsonSyntaxError]
  · intro env baseUrl orgId getP i s hm hs hp
    unfold failsBeforeAnyRequest
    simp [DocRouterLLM.step, parseJsParam, strOr, hm, hs, hp, jsonSyntaxError]
  · intro env baseUrl getP raw i ht hp
    unfold failsBeforeAnyRequest
    simp [DocRouterAccount.step, accountUpdateOrgBody, ht, hp]
  · intro env baseUrl orgId getP i s hm hs hp
    constructor <;>
      (unfold failsBeforeAnyRequest
       simp [DocRouterSchema.step, parseJsParam, strOr, hm, hs, hp, jsonSyntaxError])
  · intro env baseUrl orgId p s hm hs hp
    unfold failsBeforeAnyRequest
    simp [DocRouterSchema.validateOnce, parseJsParam, strOr, hm, hs, hp, jsonSyntaxError]
  · intro env baseUrl orgId p raw s hm hs hp
    unfold failsBeforeAnyRequest
    simp [DocRouterKnowledgeBase.runOnceAct, parseJsParam, strOr, hm, hs, hp, jsonSyntaxError]
  · intro env baseUrl orgId p raw s hm hs hp
    unfold failsBeforeAnyRequest
    simp [DocRouterKnowledgeBase.runOnceAct, parseJsParam, strOr, hm, hs, hp, jsonSyntaxError]
  · intro env baseUrl orgId p raw mv s hmv hm hs hp
    unfold failsBeforeAnyRequest
    simp [DocRouterKnowledgeBase.runOnceAct, parseJsParam, strOr, hmv, hm, hs, hp,
      jsonSyntaxError]

/-- Witness for C4: the literal malformed text `{bad` in each free-form JSON
field makes the corresponding processing fail with a validation error and an
empty request list. -/
theorem claimC4_witness :
    failsBeforeAnyRequest (DocRouterDocument.step (envW false) "B" "org1"
      (fun _ => docBadMetaPW) [itemB] "upload" 0) ∧
    failsBeforeAnyRequest (DocRouterDocument.step (envW false) "B" "org1"
      (fun _ => docBadMetaUpdPW) [itemN] "update" 0) ∧
    failsBeforeAnyRequest (DocRouter.step (envW false) "B" dcrBadPW [itemB] 0) ∧
    failsBeforeAnyRequest (DocRouterLLM.step (envW false) "B" "org1"
      (fun _ => llmBadPW) "update" 0) ∧
    failsBeforeAnyRequest (DocRouterAccount.step (envW false) "B"
      (fun _ => accBadMembersPW) accRawW "updateOrganization" 0) ∧
    failsBeforeAnyRequest (DocRouterSchema.step (envW false) "B" "org1"
      (fun _ => schemaBadPW) "create" 0) ∧
    failsBeforeAnyRequest (DocRouterSchema.validateOnce (envW false) "B" "org1" schemaBadPW) ∧
    failsBeforeAnyRequest (DocRouterKnowledgeBase.runOnceAct (envW false) "B" "org1"
      kbBadSearchPW kbRawW "search") ∧
    failsBeforeAnyRequest (DocRouterKnowledgeBase.runOnceAct (envW false) "B" "org1"
      kbBadMsgPW kbRawW "chat") ∧
    failsBeforeAnyRequest (DocRouterKnowledgeBase.runOnceAct (envW false) "B" "org1"
      kbBadChatFilterPW kbRawW "chat") :=
  ⟨claimC4_malformed_json.1 (envW false) "B" "org1" (fun _ => docBadMetaPW) [itemB] 0
      { fileName := some "f.pdf", dataB64 := "QUJD" } "\x7bbad" rfl (by rfl) (by decide) rfl,
    claimC4_malformed_json.2.1 (envW false) "B" "org1" (fun _ => docBadMetaUpdPW) [itemN] 0
      "\x7bbad" (by rfl) (by decide) rfl,
    claimC4_malformed_json.2.2.1 (envW false) "B" dcrBadPW [itemB] 0
      { fileName := some "f.pdf", dataB64 := "QUJD" } "\x7bbad" rfl (by rfl) (by decide) rfl,
    claimC4_malformed_json.2.2.2.1 (envW false) "B" "org1" (fun _ => llmBadPW) 0
      "\x7bbad" (by rfl) (by decide) rfl,
    claimC4_malformed_json.2.2.2.2.1 (envW false) "B" (fun _ => accBadMembersPW) accRawW 0
      (by decide) rfl,
    (claimC4_malformed_json.2.2.2.2.2.1 (envW false) "B" "org1" (fun _ => schemaBadPW) 0
      "\x7bbad" (by rfl) (by decide) rfl).1,
    claimC4_malformed_json.2.2.2.2.2.2.1 (envW false) "B" "org1" schemaBadPW
      "\x7bbad" (by rfl) (by decide) rfl,
    claimC4_malformed_json.2.2.2.2.2.2.2.1 (envW false) "B" "org1" kbBadSearchPW kbRawW
      "\x7bbad" (by rfl) (by decide) rfl,
    claimC4_malformed_json.2.2.2.2.2.2.2.2.1 (envW false) "B" "org1" kbBadMsgPW kbRawW
      "\x7bbad" (by rfl) (by decide) rfl,
    claimC4_malformed_json.2.2.2.2.2.2.2.2.2 (envW false) "B" "org1" kbBadChatFilterPW kbRawW
      (Json.arr []) "\x7bbad" (by rfl) (by rfl) (by decide) rfl⟩

/-- Reduction of an organization-scoped invocation once the lookup has
produced an organization id. -/
theorem withOrgContext_someOrg (env : Env) (cred : Credential) (msg : String)
    (k : String → String → List HttpRequest × Except ExecError (List Entry))
    (tj : Json) (orgId : String)
    (hhttp : env.http (orgLookupReq (resolveBaseUrl cred) cred.apiToken) = Except.ok tj)
    (ho : orgIdFromResponse tj = some orgId) :
    withOrgContext env cred msg k =
      (orgLookupReq (resolveBaseUrl cred) cred.apiToken :: (k (resolveBaseUrl cred) orgId).1,
        (k (resolveBaseUrl cred) orgId).2) := by
  unfold withOrgContext
  dsimp only
  rw [hhttp]
  dsimp only
  rw [ho]

/-- C5 (confirmed): with continue-on-fail enabled, a per-item failure does
not abort the batch: every per-item operation produces exactly one entry per
input item, the entry at a failing position is the `{ error: message }` entry
carrying the error, and every other position holds its normal result,
independent of the failures elsewhere. -/
theorem claimC5_continue_on_fail :
    (∀ (step : Nat → StepResult) (n : Nat),
      (entriesOf step 0 n).length = n ∧
      ∀ k (hk : k < (entriesOf step 0 n).length),
        (entriesOf step 0 n).get ⟨k, hk⟩ = entryAt step k) ∧
    (∀ (step : Nat → StepResult) (j : Nat) (e : ExecError),
      (step j).2 = Except.error e →
      entryAt step j = { json := errJson e, pairedItem := j, err := some e }) ∧
    (∀ (step : Nat → StepResult) (j : Nat) (v : Json),
      (step j).2 = Except.ok v →
      entryAt step j = { json := coalesceNull v, pairedItem := j, err := none }) ∧
    (∀ (env : Env) (cred : Credential) (getP : Nat → DocParams) (items : List ItemInput)
      (orgId : String) (tj : Json),
      env.continueOnFail = true →
      env.http (orgLookupReq (resolveBaseUrl cred) cred.apiToken) = Except.ok tj →
      orgIdFromResponse tj = some orgId →
      (getP 0).operation ∈ docItemOps →
      ∃ reqs, DocRouterDocument.execute env cred getP items =
        (reqs, Except.ok (entriesOf (DocRouterDocument.step env (resolveBaseUrl cred) orgId
          getP items (getP 0).operation) 0 items.length))) ∧
    (∀ (env : Env) (cred : Credential) (getP : Nat → TagParams) (items : List ItemInput)
      (orgId : String) (tj : Json),
      env.continueOnFail = true →
      env.http (orgLookupReq (resolveBaseUrl cred) cred.apiToken) = Except.ok tj →
      orgIdFromResponse tj = some orgId →
      (getP 0).operation ∈ tagItemOps →
      ∃ reqs, DocRouterTag.execute env cred getP items =
        (reqs, Except.ok (entriesOf (DocRouterTag.step env (resolveBaseUrl cred) orgId
          getP (getP 0).operation) 0 items.length))) ∧
    (∀ (env : Env) (cred : Credential) (getP : Nat → SchemaParams) (items : List ItemInput)
      (orgId : String) (tj : Json),
      env.continueOnFail = true →
      env.http (orgLookupReq (resolveBaseUrl cred) cred.apiToken) = Except.ok tj →
      orgIdFromResponse tj = some orgId →
      (getP 0).operation ∈ schemaItemOps →
      ∃ reqs, DocRouterSchema.execute env cred getP items =
        (reqs, Except.ok (entriesOf (DocRouterSchema.step env (resolveBaseUrl cred) orgId
          getP (getP 0).operation) 0 items.length))) ∧
    (∀ (env : Env) (cred : Credential) (getP : Nat → LlmParams) (items : List ItemInput)
      (orgId : String) (tj : Json),
      env.continueOnFail = true →
      env.http (orgLookupReq (resolveBaseUrl cred) cred.apiToken) = Except.ok tj →
      orgIdFromResponse tj = some orgId →
      ∃ reqs, DocRouterLLM.execute env cred getP items =
        (reqs, Except.ok (entriesOf (DocRouterLLM.step env (resolveBaseUrl cred) orgId
          getP (getP 0).operation) 0 items.length))) ∧
    (∀ (env : Env) (cred : Credential) (getP : Nat → DcrParams) (items : List ItemInput),
      env.continueOnFail = true →
      (getP 0).operation = "upload" →
      ∃ reqs, DocRouter.execute env cred getP items =
        (reqs, Except.ok (entriesOf (DocRouter.step env (resolveBaseUrl cred) (getP 0) items)
          0 items.length))) ∧
    (∀ (env : Env) (cred : Credential) (getP : Nat → AccountParams) (raw : AccountRaw)
      (items : List ItemInput),
      env.continueOnFail = true →
      (getP 0).operation ∈ accountItemOps →
      ∃ reqs, DocRouterAccount.execute env cred getP raw items =
        (reqs, Except.ok (entriesOf (DocRouterAccount.step env (resolveBaseUrl cred) getP raw
          (getP 0).operation) 0 items.length))) ∧
    (∀ (env : Env) (cred : Credential) (getP : Nat → KbParams) (raw : KbRaw)
      (items : List ItemInput) (orgId : String) (tj : Json),
      env.continueOnFail = true →
      env.http (orgLookupReq (resolveBaseUrl cred) cred.apiToken) = Except.ok tj →
      orgIdFromResponse tj = some orgId →
      (getP 0).operation ∈ kbItemOps →
      ∃ reqs, DocRouterKnowledgeBase.execute env cred getP raw items =
        (reqs, Except.ok (entriesOf (DocRouterKnowledgeBase.step env (resolveBaseUrl cred) orgId
          getP (getP 0).operation) 0 items.length))) := by
  refine ⟨?_, ?_, ?_, ?_, ?_, ?_, ?_, ?_, ?_, ?_⟩
  · intro step n
    exact ⟨entriesOf_length step n 0, fun k hk => by simpa using entriesOf_get step n 0 k hk⟩
  · intro step j e he
    unfold entryAt
    rw [he]
  · intro step j v hv
    unfold entryAt
    rw [hv]
  · intro env cred getP items orgId tj hcof hhttp ho hop
    unfold DocRouterDocument.execute
    rw [withOrgContext_someOrg env cred _ _ tj orgId hhttp ho]
    try dsimp only
    simp only [docItemOps, List.mem_cons, List.mem_singleton, List.not_mem_nil,
      or_false] at hop
    rcases hop with hcase | hcase | hcase | hcase <;>
      (rw [hcase, if_neg (by decide), hcof, runItems_cof_eq]
       exact ⟨_, rfl⟩)
  · intro env cred getP items orgId tj hcof hhttp ho hop
    unfold DocRouterTag.execute
    rw [withOrgContext_someOrg env cred _ _ tj orgId hhttp ho]
    try dsimp only
    simp only [tagItemOps, List.mem_cons, List.mem_singleton, List.not_mem_nil,
      or_false] at hop
    rcases hop with hcase | hcase | hcase | hcase <;>
      (rw [hcase, if_neg (by decide), hcof, runItems_cof_eq]
       exact ⟨_, rfl⟩)
  · intro env cred getP items orgId tj hcof hhttp ho hop
    unfold DocRouterSchema.execute
    rw [withOrgContext_someOrg env cred _ _ tj orgId hhttp ho]
    try dsimp only
    simp only [schemaItemOps, List.mem_cons, List.mem_singleton, List.not_mem_nil,
      or_false] at hop
    rcases hop with hcase | hcase | hcase | hcase <;>
      (rw [hcase, if_neg (by decide), if_neg (by decide), if_neg (by decide), hcof,
        runItems_cof_eq]
       exact ⟨_, rfl⟩)
  · intro env cred getP items orgId tj hcof hhttp ho
    unfold DocRouterLLM.execute
    rw [withOrgContext_someOrg env cred _ _ tj orgId hhttp ho]
    try dsimp only
    rw [hcof, runItems_cof_eq]
    exact ⟨_, rfl⟩
  · intro env cred getP items hcof hop
    unfold DocRouter.execute
    dsimp only
    rw [hop, if_neg (by decide), hcof, runItems_cof_eq]
    exact ⟨_, rfl⟩
  · intro env cred getP raw items hcof hop
    unfold DocRouterAccount.execute
    dsimp only
    simp only [accountItemOps, List.mem_cons, List.mem_singleton, List.not_mem_nil,
      or_false] at hop
    rcases hop with hcase | hcase | hcase | hcase | hcase | hcase <;>
      (rw [hcase, if_neg (by decide), hcof, runItems_cof_eq]
       exact ⟨_, rfl⟩)
  · intro env cred getP raw items orgId tj hcof hhttp ho hop
    unfold DocRouterKnowledgeBase.execute
    rw [withOrgContext_someOrg env cred _ _ tj orgId hhttp ho]
    try dsimp only
    simp only [kbItemOps, List.mem_cons, List.mem_singleton, List.not_mem_nil,
      or_false] at hop
    rcases hop with hcase | hcase | hcase | hcase <;>
      (rw [hcase, if_neg (by decide), hcof, runItems_cof_eq]
       exact ⟨_, rfl⟩)

/-- Witness for C5: a 3-item upload batch whose middle item has no binary
attachment, with continue-on-fail enabled, yields 3 entries: normal results
at positions 0 and 2, and an `{ error: ... }` entry carrying the failure at
position 1. -/
theorem claimC5_witness :
    (∃ reqs, DocRouterDocument.execute (envW true) credW (fun _ => docPW)
        [itemB, itemN, itemB] =
      (reqs, Except.ok (entriesOf (DocRouterDocument.step (envW true) (resolveBaseUrl credW)
        "org1" (fun _ => docPW) [itemB, itemN, itemB] "upload") 0 3))) ∧
    entriesOf (DocRouterDocument.step (envW true) (resolveBaseUrl credW) "org1"
        (fun _ => docPW) [itemB, itemN, itemB] "upload") 0 3 =
      [{ json := orgOkJson, pairedItem := 0, err := none },
        {
          json := Json.obj [("error", Json.str "No binary data found on property \"data\"")],
          pairedItem := 1,
          err := some
            {
              kind := ErrKind.missingInput,
              message := "No binary data found on property \"data\"",
              itemIndex := some 1 } },
        { json := orgOkJson, pairedItem := 2, err := none }] :=
  ⟨claimC5_continue_on_fail.2.2.2.1 (envW true) credW (fun _ => docPW) [itemB, itemN, itemB]
      "org1" orgOkJson rfl rfl rfl (by decide),
    rfl⟩

/-- C7 counterexample: with continue-on-fail disabled, the account node
re-throws the first per-item error unchanged — for a failure at item 1 the
thrown error carries no item index at all, so it is not annotated with the
offending item's position. -/
theorem claimC7_counterexample :
    (DocRouterAccount.execute (envW false) credW accUpdGetP accRawW [itemN, itemN]).2 =
      Except.error
        { kind := ErrKind.validation,
          message := "Provide at least one field to update (name, password, role, email verified, or has seen tour).",
          itemIndex := none } := rfl

/-- C7 (amended): with continue-on-fail disabled, the first failing item
aborts the batch — no later item is processed (the trace stops with the
failing item's requests) and the error is re-thrown. In the document, tag,
schema, LLM, upload-only DocRouter and knowledge-base nodes the re-thrown
error is annotated with the offending item's position; the account node
re-throws it unchanged. -/
theorem claimC7_abort_on_error :
    (∀ (env : Env) (cred : Credential) (getP : Nat → DocParams) (items : List ItemInput)
      (orgId : String) (tj : Json) (j : Nat) (reqs1 : List HttpRequest) (e : ExecError),
      env.continueOnFail = false →
      env.http (orgLookupReq (resolveBaseUrl cred) cred.apiToken) = Except.ok tj →
      orgIdFromResponse tj = some orgId →
      (getP 0).operation ∈ docItemOps →
      j < items.length →
      DocRouterDocument.step env (resolveBaseUrl cred) orgId getP items
        (getP 0).operation j = (reqs1, Except.error e) →
      (∀ k, k < j → ∃ v, (DocRouterDocument.step env (resolveBaseUrl cred) orgId getP items
        (getP 0).operation k).2 = Except.ok v) →
      DocRouterDocument.execute env cred getP items =
        (orgLookupReq (resolveBaseUrl cred) cred.apiToken ::
          (reqsOf (DocRouterDocument.step env (resolveBaseUrl cred) orgId getP items
            (getP 0).operation) 0 j ++ reqs1),
          Except.error (setIdx j e))) ∧
    (∀ (env : Env) (cred : Credential) (getP : Nat → TagParams) (items : List ItemInput)
      (orgId : String) (tj : Json) (j : Nat) (reqs1 : List HttpRequest) (e : ExecError),
      env.continueOnFail = false →
      env.http (orgLookupReq (resolveBaseUrl cred) cred.apiToken) = Except.ok tj →
      orgIdFromResponse tj = some orgId →
      (getP 0).operation ∈ tagItemOps →
      j < items.length →
      DocRouterTag.step env (resolveBaseUrl cred) orgId getP
        (getP 0).operation j = (reqs1, Except.error e) →
      (∀ k, k < j → ∃ v, (DocRouterTag.step env (resolveBaseUrl cred) orgId getP
        (getP 0).operation k).2 = Except.ok v) →
      DocRouterTag.execute env cred getP items =
        (orgLookupReq (resolveBaseUrl cred) cred.apiToken ::
          (reqsOf (DocRouterTag.step env (resolveBaseUrl cred) orgId getP
            (getP 0).operation) 0 j ++ reqs1),
          Except.error (setIdx j e))) ∧
    (∀ (env : Env) (cred : Credential) (getP : Nat → SchemaParams) (items : List ItemInput)
      (orgId : String) (tj : Json) (j : Nat) (reqs1 : List HttpRequest) (e : ExecError),
      env.continueOnFail = false →
      env.http (orgLookupReq (resolveBaseUrl cred) cred.apiToken) = Except.ok tj →
      orgIdFromResponse tj = some orgId →
      (getP 0).operation ∈ schemaItemOps →
      j < items.length →
      DocRouterSchema.step env (resolveBaseUrl cred) orgId getP
        (getP 0).operation j = (reqs1, Except.error e) →
      (∀ k, k < j → ∃ v, (DocRouterSchema.step env (resolveBaseUrl cred) orgId getP
        (getP 0).operation k).2 = Except.ok v) →
      DocRouterSchema.execute env cred getP items =
        (orgLookupReq (resolveBaseUrl cred) cred.apiToken ::
          (reqsOf (DocRouterSchema.step env (resolveBaseUrl cred) orgId getP
            (getP 0).operation) 0 j ++ reqs1),
          Except.error (setIdx j e))) ∧
    (∀ (env : Env) (cred : Credential) (getP : Nat → LlmParams) (items : List ItemInput)
      (orgId : String) (tj : Json) (j : Nat) (reqs1 : List HttpRequest) (e : ExecError),
      env.continueOnFail = false →
      env.http (orgLookupReq (resolveBaseUrl cred) cred.apiToken) = Except.ok tj →
      orgIdFromResponse tj = some orgId →
      j < items.length →
      DocRouterLLM.step env (resolveBaseUrl cred) orgId getP
        (getP 0).operation j = (reqs1, Except.error e) →
      (∀ k, k < j → ∃ v, (DocRouterLLM.step env (resolveBaseUrl cred) orgId getP
        (getP 0).operation k).2 = Except.ok v) →
      DocRouterLLM.execute env cred getP items =
        (orgLookupReq (resolveBaseUrl cred) cred.apiToken ::
          (reqsOf (DocRouterLLM.step env (resolveBaseUrl cred) orgId getP
            (getP 0).operation) 0 j ++ reqs1),
          Except.error (setIdx j e))) ∧
    (∀ (env : Env) (cred : Credential) (getP : Nat → DcrParams) (items : List ItemInput)
      (j : Nat) (reqs1 : List HttpRequest) (e : ExecError),
      env.continueOnFail = false →
      (getP 0).operation = "upload" →
      j < items.length →
      DocRouter.step env (resolveBaseUrl cred) (getP 0) items j = (reqs1, Except.error e) →
      (∀ k, k < j → ∃ v, (DocRouter.step env (resolveBaseUrl cred) (getP 0) items k).2 =
        Except.ok v) →
      DocRouter.execute env cred getP items =
        (reqsOf (DocRouter.step env (resolveBaseUrl cred) (getP 0) items) 0 j ++ reqs1,
          Except.error (setIdx j e))) ∧
    (∀ (env : Env) (cred : Credential) (getP : Nat → AccountParams) (raw : AccountRaw)
      (items : List ItemInput) (j : Nat) (reqs1 : List HttpRequest) (e : ExecError),
      env.continueOnFail = false →
      (getP 0).operation ∈ accountItemOps →
      j < items.length →
      DocRouterAccount.step env (resolveBaseUrl cred) getP raw
        (getP 0).operation j = (reqs1, Except.error e) →
      (∀ k, k < j → ∃ v, (DocRouterAccount.step env (resolveBaseUrl cred) getP raw
        (getP 0).operation k).2 = Except.ok v) →
      DocRouterAccount.execute env cred getP raw items =
        (reqsOf (DocRouterAccount.step env (resolveBaseUrl cred) getP raw
          (getP 0).operation) 0 j ++ reqs1,
          Except.error e)) ∧
    (∀ (env : Env) (cred : Credential) (getP : Nat → KbParams) (raw : KbRaw)
      (items : List ItemInput) (orgId : String) (tj : Json) (j : Nat)
      (reqs1 : List HttpRequest) (e : ExecError),
      env.continueOnFail = false →
      env.http (orgLookupReq (resolveBaseUrl cred) cred.apiToken) = Except.ok tj →
      orgIdFromResponse tj = some orgId →
      (getP 0).operation ∈ kbItemOps →
      j < items.length →
      DocRouterKnowledgeBase.step env (resolveBaseUrl cred) orgId getP
        (getP 0).operation j = (reqs1, Except.error e) →
      (∀ k, k < j → ∃ v, (DocRouterKnowledgeBase.step env (resolveBaseUrl cred) orgId getP
        (getP 0).operation k).2 = Except.ok v) →
      DocRouterKnowledgeBase.execute env cred getP raw items =
        (orgLookupReq (resolveBaseUrl cred) cred.apiToken ::
          (reqsOf (DocRouterKnowledgeBase.step env (resolveBaseUrl cred) orgId getP
            (getP 0).operation) 0 j ++ reqs1),
          Except.error (setIdx j e))) := by
  refine ⟨?_, ?_, ?_, ?_, ?_, ?_, ?_⟩
  · intro env cred getP items orgId tj j reqs1 e hcof hhttp ho hop hj hfail hok
    unfold DocRouterDocument.execute
    rw [withOrgContext_someOrg env cred _ _ tj orgId hhttp ho]
    try dsimp only
    simp only [docItemOps, List.mem_cons, List.mem_singleton, List.not_mem_nil,
      or_false] at hop
    rcases hop with hcase | hcase | hcase | hcase <;>
      (rw [hcase] at hfail hok ⊢
       rw [if_neg (by decide), hcof]
       rw [runItems_abort true _ j items.length 0 reqs1 e hj (by simpa using hfail)
         (fun k hk => by simpa using hok k hk)]
       simp)
  · intro env cred getP items orgId tj j reqs1 e hcof hhttp ho hop hj hfail hok
    unfold DocRouterTag.execute
    rw [withOrgContext_someOrg env cred _ _ tj orgId hhttp ho]
    try dsimp only
    simp only [tagItemOps, List.mem_cons, List.mem_singleton, List.not_mem_nil,
      or_false] at hop
    rcases hop with hcase | hcase | hcase | hcase <;>
      (rw [hcase] at hfail hok ⊢
       rw [if_neg (by decide), hcof]
       rw [runItems_abort true _ j items.length 0 reqs1 e hj (by simpa using hfail)
         (fun k hk => by simpa using hok k hk)]
       simp)
  · intro env cred getP items orgId tj j reqs1 e hcof hhttp ho hop hj hfail hok
    unfold DocRouterSchema.execute
    rw [withOrgContext_someOrg env cred _ _ tj orgId hhttp ho]
    try dsimp only
    simp only [schemaItemOps, List.mem_cons, List.mem_singleton, List.not_mem_nil,
      or_false] at hop
    rcases hop with hcase | hcase | hcase | hcase <;>
      (rw [hcase] at hfail hok ⊢
       rw [if_neg (by decide), if_neg (by decide), if_neg (by decide), hcof]
       rw [runItems_abort true _ j items.length 0 reqs1 e hj (by simpa using hfail)
         (fun k hk => by simpa using hok k hk)]
       simp)
  · intro env cred getP items orgId tj j reqs1 e hcof hhttp ho hj hfail hok
    unfold DocRouterLLM.execute
    rw [withOrgContext_someOrg env cred _ _ tj orgId hhttp ho]
    try dsimp only
    rw [hcof]
    rw [runItems_abort true _ j items.length 0 reqs1 e hj (by simpa using hfail)
      (fun k hk => by simpa using hok k hk)]
    simp
  · intro env cred getP items j reqs1 e hcof hop hj hfail hok
    unfold DocRouter.execute
    try dsimp only
    rw [hop, if_neg (by decide), hcof]
    rw [runItems_abort true _ j items.length 0 reqs1 e hj (by simpa using hfail)
      (fun k hk => by simpa using hok k hk)]
    simp
  · intro env cred getP raw items j reqs1 e hcof hop hj hfail hok
    unfold DocRouterAccount.execute
    try dsimp only
    simp only [accountItemOps, List.mem_cons, List.mem_singleton, List.not_mem_nil,
      or_false] at hop
    rcases hop with hcase | hcase | hcase | hcase | hcase | hcase <;>
      (rw [hcase] at hfail hok ⊢
       rw [if_neg (by decide), hcof]
       rw [runItems_abort false _ j items.length 0 reqs1 e hj (by simpa using hfail)
         (fun k hk => by simpa using hok k hk)]
       simp)
  · intro env cred getP raw items orgId tj j reqs1 e hcof hhttp ho hop hj hfail hok
    unfold DocRouterKnowledgeBase.execute
    rw [withOrgContext_someOrg env cred _ _ tj orgId hhttp ho]
    try dsimp only
    simp only [kbItemOps, List.mem_cons, List.mem_singleton, List.not_mem_nil,
      or_false] at hop
    rcases hop with hcase | hcase | hcase | hcase <;>
      (rw [hcase] at hfail hok ⊢
       rw [if_neg (by decide), hcof]
       rw [runItems_abort true _ j items.length 0 reqs1 e hj (by simpa using hfail)
         (fun k hk => by simpa using hok k hk)]
       simp)

/-- Witness for C7: a document upload batch failing at item 1 aborts with the
error annotated with index 1, while an account update batch failing at item 1
aborts with the error unannotated. -/
theorem claimC7_witness :
    (DocRouterDocument.execute (envW false) credW (fun _ => docPW) [itemB, itemN] =
      (orgLookupReq (resolveBaseUrl credW) credW.apiToken ::
        (reqsOf (DocRouterDocument.step (envW false) (resolveBaseUrl credW) "org1"
          (fun _ => docPW) [itemB, itemN] "upload") 0 1 ++ []),
        Except.error (setIdx 1
          { kind := ErrKind.missingInput,
            message := "No binary data found on property \"data\"",
            itemIndex := some 1 }))) ∧
    (DocRouterAccount.execute (envW false) credW accUpdGetP accRawW [itemN, itemN] =
      (reqsOf (DocRouterAccount.step (envW false) (resolveBaseUrl credW) accUpdGetP accRawW
        "updateUser") 0 1 ++ [],
        Except.error
          { kind := ErrKind.validation,
            message := "Provide at least one field to update (name, password, role, email verified, or has seen tour).",
            itemIndex := none })) :=
  ⟨claimC7_abort_on_error.1 (envW false) credW (fun _ => docPW) [itemB, itemN] "org1"
      orgOkJson 1 []
      { kind := ErrKind.missingInput,
        message := "No binary data found on property \"data\"",
        itemIndex := some 1 }
      rfl rfl rfl (by decide) (by decide) rfl
      (by
        intro k hk
        have hk0 : k = 0 := by omega
        subst hk0
        exact ⟨orgOkJson, rfl⟩),
    claimC7_abort_on_error.2.2.2.2.2.1 (envW false) credW accUpdGetP accRawW [itemN, itemN] 1 []
      { kind := ErrKind.validation,
        message := "Provide at least one field to update (name, password, role, email verified, or has seen tour).",
        itemIndex := none }
      rfl (by decide) (by decide) rfl
      (by
        intro k hk
        have hk0 : k = 0 := by omega
        subst hk0
        exact ⟨orgOkJson, rfl⟩)⟩

/-- An operation outside the document node's declared per-item set reaches
the default case of its switch. -/
theorem docStep_unknown (env : Env) (baseUrl orgId : String) (getP : Nat → DocParams)
    (items : List ItemInput) (op : String) (i : Nat) (h2 : op ∉ docItemOps) :
    DocRouterDocument.step env baseUrl orgId getP items op i =
      ([], Except.error
        { kind := ErrKind.unsupportedOperation,
          message := "Unknown operation: " ++ op, itemIndex := none }) := by
  simp only [docItemOps, List.mem_cons, List.not_mem_nil, or_false] at h2
  push_neg at h2
  unfold DocRouterDocument.step
  rw [if_neg h2.1, if_neg h2.2.1, if_neg h2.2.2.1, if_neg h2.2.2.2]

/-- Same for the tag node (which has no custom-API-call branch). -/
theorem tagStep_unknown (env : Env) (baseUrl orgId : String) (getP : Nat → TagParams)
    (op : String) (i : Nat) (h2 : op ∉ tagItemOps) :
    DocRouterTag.step env baseUrl orgId getP op i =
      ([], Except.error
        { kind := ErrKind.unsupportedOperation,
          message := "Unknown operation: " ++ op, itemIndex := none }) := by
  simp only [tagItemOps, List.mem_cons, List.not_mem_nil, or_false] at h2
  push_neg at h2
  unfold DocRouterTag.step
  rw [if_neg h2.1, if_neg h2.2.1, if_neg h2.2.2.1, if_neg h2.2.2.2]

/-- Same for the schema node, whose default case distinguishes the
custom-API-call sentinel. -/
theorem schemaStep_unknown (env : Env) (baseUrl orgId : String) (getP : Nat → SchemaParams)
    (op : String) (i : Nat) (h2 : op ∉ schemaItemOps) (h3 : op ≠ "__CUSTOM_API_CALL__") :
    DocRouterSchema.step env baseUrl orgId getP op i =
      ([], Except.error
        { kind := ErrKind.unsupportedOperation,
          message := "Unknown operation: " ++ op, itemIndex := none }) := by
  simp only [schemaItemOps, List.mem_cons, List.not_mem_nil, or_false] at h2
  push_neg at h2
  unfold DocRouterSchema.step
  rw [if_neg h2.1, if_neg h2.2.1, if_neg h2.2.2.1, if_neg h2.2.2.2, if_neg h3]

/-- Same for the LLM node. -/
theorem llmStep_unknown (env : Env) (baseUrl orgId : String) (getP : Nat → LlmParams)
    (op : String) (i : Nat) (h2 : op ∉ llmItemOps) (h3 : op ≠ "__CUSTOM_API_CALL__") :
    DocRouterLLM.step env baseUrl orgId getP op i =
      ([], Except.error
        { kind := ErrKind.unsupportedOperation,
          message := "Unknown operation: " ++ op, itemIndex := none }) := by
  simp only [llmItemOps, List.mem_cons, List.not_mem_nil, or_false] at h2
  push_neg at h2
  unfold DocRouterLLM.step
  rw [if_neg h2.1, if_neg h2.2.1, if_neg h2.2.2.1, if_neg h2.2.2.2, if_neg h3]

/-- Same for the account node. -/
theorem accountStep_unknown (env : Env) (baseUrl : String) (getP : Nat → AccountParams)
    (raw : AccountRaw) (op : String) (i : Nat) (h2 : op ∉ accountItemOps)
    (h3 : op ≠ "__CUSTOM_API_CALL__") :
    DocRouterAccount.step env baseUrl getP raw op i =
      ([], Except.error
        { kind := ErrKind.unsupportedOperation,
          message := "Unknown operation: " ++ op, itemIndex := none }) := by
  simp only [accountItemOps, List.mem_cons, List.not_mem_nil, or_false] at h2
  push_neg at h2
  unfold DocRouterAccount.step
  rw [if_neg h2.1, if_neg h2.2.1, if_neg h2.2.2.1, if_neg h2.2.2.2.1, if_neg h2.2.2.2.2.1,
    if_neg h2.2.2.2.2.2, if_neg h3]

/-- Same for the knowledge-base node. -/
theorem kbStep_unknown (env : Env) (baseUrl orgId : String) (getP : Nat → KbParams)
    (op : String) (i : Nat) (h2 : op ∉ kbItemOps) (h3 : op ≠ "__CUSTOM_API_CALL__") :
    DocRouterKnowledgeBase.step env baseUrl orgId getP op i =
      ([], Except.error
        { kind := ErrKind.unsupportedOperation,
          message := "Unknown operation: " ++ op, itemIndex := none }) := by
  simp only [kbItemOps, List.mem_cons, List.not_mem_nil, or_false] at h2
  push_neg at h2
  unfold DocRouterKnowledgeBase.step
  rw [if_neg h2.1, if_neg h2.2.1, if_neg h2.2.2.1, if_neg h2.2.2.2, if_neg h3]

/-- C6 (amended): with continue-on-fail disabled and a non-empty batch, an
operation name outside a node's declared set fails with an
unsupported-operation error reading `Unknown operation: <name>`. The
distinguished custom-API-call message (directing the caller to the generic
HTTP Request node with the same credential type) exists only in the account,
schema, LLM and knowledge-base nodes; the document and tag nodes (and the
upload-only DocRouter node, which rejects non-upload names before reading
items) report the generic message even for the `__CUSTOM_API_CALL__`
sentinel. -/
theorem claimC6_unsupported_operation :
    (∀ (env : Env) (cred : Credential) (getP : Nat → DocParams) (items : List ItemInput)
      (orgId : String) (tj : Json),
      env.continueOnFail = false →
      env.http (orgLookupReq (resolveBaseUrl cred) cred.apiToken) = Except.ok tj →
      orgIdFromResponse tj = some orgId →
      (getP 0).operation ≠ "list" → (getP 0).operation ∉ docItemOps →
      items ≠ [] →
      (DocRouterDocument.execute env cred getP items).2 =
        Except.error
          { kind := ErrKind.unsupportedOperation,
            message := "Unknown operation: " ++ (getP 0).operation,
            itemIndex := some 0 }) ∧
    (∀ (env : Env) (cred : Credential) (getP : Nat → TagParams) (items : List ItemInput)
      (orgId : String) (tj : Json),
      env.continueOnFail = false →
      env.http (orgLookupReq (resolveBaseUrl cred) cred.apiToken) = Except.ok tj →
      orgIdFromResponse tj = some orgId →
      (getP 0).operation ≠ "list" → (getP 0).operation ∉ tagItemOps →
      items ≠ [] →
      (DocRouterTag.execute env cred getP items).2 =
        Except.error
          { kind := ErrKind.unsupportedOperation,
            message := "Unknown operation: " ++ (getP 0).operation,
            itemIndex := some 0 }) ∧
    (∀ (env : Env) (cred : Credential) (getP : Nat → DcrParams) (items : List ItemInput),
      (getP 0).operation ≠ "upload" →
      DocRouter.execute env cred getP items =
        ([], Except.error
          { kind := ErrKind.unsupportedOperation,
            message := "Unknown operation: " ++ (getP 0).operation,
            itemIndex := none })) ∧
    (∀ (env : Env) (cred : Credential) (getP : Nat → SchemaParams) (items : List ItemInput)
      (orgId : String) (tj : Json),
      env.continueOnFail = false →
      env.http (orgLookupReq (resolveBaseUrl cred) cred.apiToken) = Except.ok tj →
      orgIdFromResponse tj = some orgId →
      (getP 0).operation ∉ schemaOnceOps → (getP 0).operation ∉ schemaItemOps →
      (getP 0).operation ≠ "__CUSTOM_API_CALL__" →
      items ≠ [] →
      (DocRouterSchema.execute env cred getP items).2 =
        Except.error
          { kind := ErrKind.unsupportedOperation,
            message := "Unknown operation: " ++ (getP 0).operation,
            itemIndex := some 0 }) ∧
    (∀ (env : Env) (cred : Credential) (getP : Nat → SchemaParams) (items : List ItemInput)
      (orgId : String) (tj : Json),
      env.continueOnFail = false →
      env.http (orgLookupReq (resolveBaseUrl cred) cred.apiToken) = Except.ok tj →
      orgIdFromResponse tj = some orgId →
      (getP 0).operation = "__CUSTOM_API_CALL__" →
      items ≠ [] →
      (DocRouterSchema.execute env cred getP items).2 =
        Except.error
          { kind := ErrKind.unsupportedOperation,
            message := "For custom API calls, use the HTTP Request node and choose \"DocRouter Organization API\" under Authentication â†’ Predefined Credential Type. This node only supports List, Get, Create, Update, Delete, Validate, and List Versions.",
            itemIndex := some 0 }) ∧
    (∀ (env : Env) (cred : Credential) (getP : Nat → LlmParams) (items : List ItemInput)
      (orgId : String) (tj : Json),
      env.continueOnFail = false →
      env.http (orgLookupReq (resolveBaseUrl cred) cred.apiToken) = Except.ok tj →
      orgIdFromResponse tj = some orgId →
      (getP 0).operation ∉ llmItemOps →
      (getP 0).operation ≠ "__CUSTOM_API_CALL__" →
      items ≠ [] →
      (DocRouterLLM.execute env cred getP items).2 =
        Except.error
          { kind := ErrKind.unsupportedOperation,
            message := "Unknown operation: " ++ (getP 0).operation,
            itemIndex := some 0 }) ∧
    (∀ (env : Env) (cred : Credential) (getP : Nat → LlmParams) (items : List ItemInput)
      (orgId : String) (tj : Json),
      env.continueOnFail = false →
      env.http (orgLookupReq (resolveBaseUrl cred) cred.apiToken) = Except.ok tj →
      orgIdFromResponse tj = some orgId →
      (getP 0).operation = "__CUSTOM_API_CALL__" →
      items ≠ [] →
      (DocRouterLLM.execute env cred getP items).2 =
        Except.error
          { kind := ErrKind.unsupportedOperation,
            message := "For custom API calls, use the HTTP Request node and choose \"DocRouter Organization API\" under Authentication â†’ Predefined Credential Type. This node only supports Run, Get, Update, and Delete.",
            itemIndex := some 0 }) ∧
    (∀ (env : Env) (cred : Credential) (getP : Nat → AccountParams) (raw : AccountRaw)
      (items : List ItemInput),
      env.continueOnFail = false →
      (getP 0).operation ∉ accountRunOnceOps → (getP 0).operation ∉ accountItemOps →
      (getP 0).operation ≠ "__CUSTOM_API_CALL__" →
      items ≠ [] →
      (DocRouterAccount.execute env cred getP raw items).2 =
        Except.error
          { kind := ErrKind.unsupportedOperation,
            message := "Unknown operation: " ++ (getP 0).operation,
            itemIndex := none }) ∧
    (∀ (env : Env) (cred : Credential) (getP : Nat → AccountParams) (raw : AccountRaw)
      (items : List ItemInput),
      env.continueOnFail = false →
      (getP 0).operation = "__CUSTOM_API_CALL__" →
      items ≠ [] →
      (DocRouterAccount.execute env cred getP raw items).2 =
        Except.error
          { kind := ErrKind.unsupportedOperation,
            message := "For custom API calls, use the HTTP Request node with DocRouter Account API credentials. This node only supports account users and organizations operations.",
            itemIndex := none }) ∧
    (∀ (env : Env) (cred : Credential) (getP : Nat → KbParams) (raw : KbRaw)
      (items : List ItemInput) (orgId : String) (tj : Json),
      env.continueOnFail = false →
      env.http (orgLookupReq (resolveBaseUrl cred) cred.apiToken) = Except.ok tj →
      orgIdFromResponse tj = some orgId →
      (getP 0).operation ∉ kbRunOnceOps → (getP 0).operation ∉ kbItemOps →
      (getP 0).operation ≠ "__CUSTOM_API_CALL__" →
      items ≠ [] →
      (DocRouterKnowledgeBase.execute env cred getP raw items).2 =
        Except.error
          { kind := ErrKind.unsupportedOperation,
            message := "Unknown operation: " ++ (getP 0).operation,
            itemIndex := some 0 }) ∧
    (∀ (env : Env) (cred : Credential) (getP : Nat → KbParams) (raw : KbRaw)
      (items : List ItemInput) (orgId : String) (tj : Json),
      env.continueOnFail = false →
      env.http (orgLookupReq (resolveBaseUrl cred) cred.apiToken) = Except.ok tj →
      orgIdFromResponse tj = some orgId →
      (getP 0).operation = "__CUSTOM_API_CALL__" →
      items ≠ [] →
      (DocRouterKnowledgeBase.execute env cred getP raw items).2 =
        Except.error
          { kind := ErrKind.unsupportedOperation,
            message := "For custom API calls, use the HTTP Request node and choose \"DocRouter Organization API\" under Authentication → Predefined Credential Type. This node only supports List, Get, Create, Update, Delete, List Documents, List Chunks, Search, Chat, Reconcile, and Reconcile All.",
            itemIndex := some 0 }) := by
  refine ⟨?_, ?_, ?_, ?_, ?_, ?_, ?_, ?_, ?_, ?_, ?_⟩
  · intro env cred getP items orgId tj hcof hhttp ho hop1 hop2 hitems
    unfold DocRouterDocument.execute
    rw [withOrgContext_someOrg env cred _ _ tj orgId hhttp ho]
    try dsimp only
    rw [if_neg hop1, hcof]
    rw [runItems_abort true _ 0 items.length 0 [] _ (List.length_pos.mpr hitems)
      (docStep_unknown env (resolveBaseUrl cred) orgId getP items (getP 0).operation 0 hop2)
      (fun k hk => absurd hk (Nat.not_lt_zero k))]
    simp [setIdx]
  · intro env cred getP items orgId tj hcof hhttp ho hop1 hop2 hitems
    unfold DocRouterTag.execute
    rw [withOrgContext_someOrg env cred _ _ tj orgId hhttp ho]
    try dsimp only
    rw [if_neg hop1, hcof]
    rw [runItems_abort true _ 0 items.length 0 [] _ (List.length_pos.mpr hitems)
      (tagStep_unknown env (resolveBaseUrl cred) orgId getP (getP 0).operation 0 hop2)
      (fun k hk => absurd hk (Nat.not_lt_zero k))]
    simp [setIdx]
  · intro env cred getP items hop
    unfold DocRouter.execute
    try dsimp only
    rw [if_pos hop]
  · intro env cred getP items orgId tj hcof hhttp ho hop1 hop2 hop3 hitems
    unfold DocRouterSchema.execute
    rw [withOrgContext_someOrg env cred _ _ tj orgId hhttp ho]
    try dsimp only
    simp only [schemaOnceOps, List.mem_cons, List.not_mem_nil, or_false] at hop1
    push_neg at hop1
    rw [if_neg hop1.1, if_neg hop1.2.1, if_neg hop1.2.2, hcof]
    rw [runItems_abort true _ 0 items.length 0 [] _ (List.length_pos.mpr hitems)
      (schemaStep_unknown env (resolveBaseUrl cred) orgId getP (getP 0).operation 0 hop2 hop3)
      (fun k hk => absurd hk (Nat.not_lt_zero k))]
    simp [setIdx]
  · intro env cred getP items orgId tj hcof hhttp ho hop hitems
    unfold DocRouterSchema.execute
    rw [withOrgContext_someOrg env cred _ _ tj orgId hhttp ho]
    try dsimp only
    rw [hop]
    rw [if_neg (by decide), if_neg (by decide), if_neg (by decide), hcof]
    rw [runItems_abort true _ 0 items.length 0 [] _ (List.length_pos.mpr hitems) rfl
      (fun k hk => absurd hk (Nat.not_lt_zero k))]
    simp [setIdx]
  · intro env cred getP items orgId tj hcof hhttp ho hop2 hop3 hitems
    unfold DocRouterLLM.execute
    rw [withOrgContext_someOrg env cred _ _ tj orgId hhttp ho]
    try dsimp only
    rw [hcof]
    rw [runItems_abort true _ 0 items.length 0 [] _ (List.length_pos.mpr hitems)
      (llmStep_unknown env (resolveBaseUrl cred) orgId getP (getP 0).operation 0 hop2 hop3)
      (fun k hk => absurd hk (Nat.not_lt_zero k))]
    simp [setIdx]
  · intro env cred getP items orgId tj hcof hhttp ho hop hitems
    unfold DocRouterLLM.execute
    rw [withOrgContext_someOrg env cred _ _ tj orgId hhttp ho]
    try dsimp only
    rw [hop, hcof]
    rw [runItems_abort true _ 0 items.length 0 [] _ (List.length_pos.mpr hitems) rfl
      (fun k hk => absurd hk (Nat.not_lt_zero k))]
    simp [setIdx]
  · intro env cred getP raw items hcof hop1 hop2 hop3 hitems
    unfold DocRouterAccount.execute
    try dsimp only
    rw [if_neg hop1, hcof]
    rw [runItems_abort false _ 0 items.length 0 [] _ (List.length_pos.mpr hitems)
      (accountStep_unknown env (resolveBaseUrl cred) getP raw (getP 0).operation 0 hop2 hop3)
      (fun k hk => absurd hk (Nat.not_lt_zero k))]
    simp
  · intro env cred getP raw items hcof hop hitems
    unfold DocRouterAccount.execute
    try dsimp only
    rw [hop]
    rw [if_neg (by decide), hcof]
    rw [runItems_abort false _ 0 items.length 0 [] _ (List.length_pos.mpr hitems) rfl
      (fun k hk => absurd hk (Nat.not_lt_zero k))]
    simp
  · intro env cred getP raw items orgId tj hcof hhttp ho hop1 hop2 hop3 hitems
    unfold DocRouterKnowledgeBase.execute
    rw [withOrgContext_someOrg env cred _ _ tj orgId hhttp ho]
    try dsimp only
    rw [if_neg hop1, hcof]
    rw [runItems_abort true _ 0 items.length 0 [] _ (List.length_pos.mpr hitems)
      (kbStep_unknown env (resolveBaseUrl cred) orgId getP (getP 0).operation 0 hop2 hop3)
      (fun k hk => absurd hk (Nat.not_lt_zero k))]
    simp [setIdx]
  · intro env cred getP raw items orgId tj hcof hhttp ho hop hitems
    unfold DocRouterKnowledgeBase.execute
    rw [withOrgContext_someOrg env cred _ _ tj orgId hhttp ho]
    try dsimp only
    rw [hop]
    rw [if_neg (by decide), hcof]
    rw [runItems_abort true _ 0 items.length 0 [] _ (List.length_pos.mpr hitems) rfl
      (fun k hk => absurd hk (Nat.not_lt_zero k))]
    simp [setIdx]

/-- C6 counterexample: for the `__CUSTOM_API_CALL__` sentinel the document
node produces the same generic `Unknown operation:` text as any unknown
name — no distinguished message directing the caller to a generic HTTP
client. -/
theorem claimC6_counterexample :
    (DocRouterDocument.execute (envW false) credW
        (fun _ => { docPW with operation := "__CUSTOM_API_CALL__" }) [itemN]).2 =
      Except.error
        { kind := ErrKind.unsupportedOperation,
          message := "Unknown operation: __CUSTOM_API_CALL__",
          itemIndex := some 0 } := rfl

/-- Witness for C6: an unknown name on the document node gives the generic
error, while the sentinel on the schema, account and knowledge-base nodes
gives each node's distinguished custom-API-call message. -/
theorem claimC6_witness :
    ((DocRouterDocument.execute (envW false) credW
        (fun _ => { docPW with operation := "bogus" }) [itemN]).2 =
      Except.error
        { kind := ErrKind.unsupportedOperation,
          message := "Unknown operation: bogus", itemIndex := some 0 }) ∧
    ((DocRouterSchema.execute (envW false) credW
        (fun _ => { schemaPW with operation := "__CUSTOM_API_CALL__" }) [itemN]).2 =
      Except.error
        { kind := ErrKind.unsupportedOperation,
          message := "For custom API calls, use the HTTP Request node and choose \"DocRouter Organization API\" under Authentication â†’ Predefined Credential Type. This node only supports List, Get, Create, Update, Delete, Validate, and List Versions.",
          itemIndex := some 0 }) ∧
    ((DocRouterAccount.execute (envW false) credW
        (fun _ => { accPW with operation := "__CUSTOM_API_CALL__" }) accRawW [itemN]).2 =
      Except.error
        { kind := ErrKind.unsupportedOperation,
          message := "For custom API calls, use the HTTP Request node with DocRouter Account API credentials. This node only supports account users and organizations operations.",
          itemIndex := none }) ∧
    ((DocRouterKnowledgeBase.execute (envW false) credW
        (fun _ => { kbPW with operation := "__CUSTOM_API_CALL__" }) kbRawW [itemN]).2 =
      Except.error
        { kind := ErrKind.unsupportedOperation,
          message := "For custom API calls, use the HTTP Request node and choose \"DocRouter Organization API\" under Authentication → Predefined Credential Type. This node only supports List, Get, Create, Update, Delete, List Documents, List Chunks, Search, Chat, Reconcile, and Reconcile All.",
          itemIndex := some 0 }) :=
  ⟨claimC6_unsupported_operation.1 (envW false) credW
      (fun _ => { docPW with operation := "bogus" }) [itemN] "org1" orgOkJson
      rfl rfl rfl (by decide) (by decide) (List.cons_ne_nil _ _),
    claimC6_unsupported_operation.2.2.2.2.1 (envW false) credW
      (fun _ => { schemaPW with operation := "__CUSTOM_API_CALL__" }) [itemN] "org1" orgOkJson
      rfl rfl rfl rfl (List.cons_ne_nil _ _),
    claimC6_unsupported_operation.2.2.2.2.2.2.2.2.1 (envW false) credW
      (fun _ => { accPW with operation := "__CUSTOM_API_CALL__" }) accRawW [itemN]
      rfl rfl (List.cons_ne_nil _ _),
    claimC6_unsupported_operation.2.2.2.2.2.2.2.2.2.2 (envW false) credW
      (fun _ => { kbPW with operation := "__CUSTOM_API_CALL__" }) kbRawW [itemN] "org1"
      orgOkJson rfl rfl rfl rfl (List.cons_ne_nil _ _)⟩

/-- C8 counterexample: the knowledge-base `create` with a blank tag-ID input
still sends `tag_ids`, as an explicit empty list, instead of omitting the
field from the request body. -/
theorem claimC8_counterexample :
    kbPW.tagIds = "" ∧
    (DocRouterKnowledgeBase.step (envW false) "B" "org1" (fun _ => kbPW) "create" 0).1 =
      [{ method := "POST", baseURL := "B", url := orgUrl "org1" "/knowledge-bases",
          qs := [], body := some (kbCreateBody kbPW) }] ∧
    (kbCreateBody kbPW).getField "tag_ids" = some (Json.arr []) :=
  ⟨rfl, rfl, rfl⟩

/-- C8 (amended): comma-separated tag-ID inputs normalize everywhere to the
trimmed non-empty tokens (`"a, b ,c"` becomes `["a","b","c"]`; blank or
all-empty-token input yields the empty list); the document upload body omits
`tag_ids` entirely when the normalized list is empty and sends it when it is
not, but the knowledge-base `create` and `update` bodies always carry a
`tag_ids` field, an empty list for blank input. -/
theorem claimC8_tag_ids :
    normalizeTagIds "a, b ,c" = ["a", "b", "c"] ∧
    normalizeTagIds "" = [] ∧
    normalizeTagIds " ," = [] ∧
    (∀ s : String, s ≠ "" →
      normalizeTagIds s = ((s.jsSplitComma).map String.jsTrim).filter (fun t => t ≠ "")) ∧
    (∀ (n c : String) (md : Json),
      docUploadBody n c [] md = Json.obj [("documents", Json.arr [Json.obj
        ([("name", Json.str n), ("content", Json.str c)]
          ++ (if (coalesceNull md).keysCount ≠ 0 then [("metadata", md)] else []))])]) ∧
    (∀ (n c t : String) (ts : List String) (md : Json),
      docUploadBody n c (t :: ts) md = Json.obj [("documents", Json.arr [Json.obj
        ([("name", Json.str n), ("content", Json.str c),
          ("tag_ids", Json.arr ((t :: ts).map Json.str))]
          ++ (if (coalesceNull md).keysCount ≠ 0 then [("metadata", md)] else []))])]) ∧
    (∀ p : KbParams,
      (kbCreateBody p).getField "tag_ids" =
        some (Json.arr ((kbTagIds p.tagIds).map Json.str))) ∧
    (∀ p : KbParams,
      (kbUpdateBody p).getField "tag_ids" =
        some (Json.arr ((kbTagIds p.tagIds).map Json.str))) ∧
    kbTagIds "" = [] := by
  refine ⟨by decide, rfl, by decide, ?_, ?_, ?_, ?_, ?_, rfl⟩
  · intro s hs
    unfold normalizeTagIds
    rw [if_neg hs]
  · intro n c md
    unfold docUploadBody
    simp
  · intro n c t ts md
    unfold docUploadBody
    simp
  · intro p
    unfold kbCreateBody Json.getField
    rfl
  · intro p
    unfold kbUpdateBody Json.getField
    rfl

/-- Witness for C8: the general conjuncts evaluated at the concrete inputs
`"a, b ,c"`, an empty tag list, a singleton tag list, and the baseline
knowledge-base parameters (blank tag input). -/
theorem claimC8_witness :
    normalizeTagIds "a, b ,c" =
      ((("a, b ,c" : String).jsSplitComma).map String.jsTrim).filter (fun t => t ≠ "") ∧
    docUploadBody "n" "QUJD" [] (Json.obj []) =
      Json.obj [("documents", Json.arr [Json.obj
        [("name", Json.str "n"), ("content", Json.str "QUJD")]])] ∧
    docUploadBody "n" "QUJD" ["a"] (Json.obj []) =
      Json.obj [("documents", Json.arr [Json.obj
        [("name", Json.str "n"), ("content", Json.str "QUJD"),
          ("tag_ids", Json.arr [Json.str "a"])]])] ∧
    (kbCreateBody kbPW).getField "tag_ids" = some (Json.arr []) ∧
    (kbUpdateBody kbPW).getField "tag_ids" = some (Json.arr []) :=
  ⟨claimC8_tag_ids.2.2.2.1 "a, b ,c" (by decide),
    claimC8_tag_ids.2.2.2.2.1 "n" "QUJD" (Json.obj []),
    claimC8_tag_ids.2.2.2.2.2.1 "n" "QUJD" "a" [] (Json.obj []),
    claimC8_tag_ids.2.2.2.2.2.2.1 kbPW,
    claimC8_tag_ids.2.2.2.2.2.2.2.1 kbPW⟩

/-- C9 (confirmed): every delete operation ignores the remote body (which may
be empty) and returns the synthesized `{ success: true, <entity id> }`
confirmation payload carrying the deleted identifier. -/
theorem claimC9_delete_payload :
    (∀ (env : Env) (baseUrl orgId : String) (getP : Nat → DocParams)
      (items : List ItemInput) (i : Nat) (rj : Json),
      env.http { method := "DELETE", baseURL := baseUrl,
                 url := orgUrl orgId ("/documents/" ++ (getP i).documentId),
                 qs := [], body := none } = Except.ok rj →
      DocRouterDocument.step env baseUrl orgId getP items "delete" i =
        ([{ method := "DELETE", baseURL := baseUrl,
            url := orgUrl orgId ("/documents/" ++ (getP i).documentId),
            qs := [], body := none }],
          Except.ok (Json.obj [("success", Json.bool true),
            ("documentId", Json.str (getP i).documentId)]))) ∧
    (∀ (env : Env) (baseUrl orgId : String) (getP : Nat → TagParams) (i : Nat) (rj : Json),
      env.http { method := "DELETE", baseURL := baseUrl,
                 url := orgUrl orgId ("/tags/" ++ (getP i).tagId),
                 qs := [], body := none } = Except.ok rj →
      DocRouterTag.step env baseUrl orgId getP "delete" i =
        ([{ method := "DELETE", baseURL := baseUrl,
            url := orgUrl orgId ("/tags/" ++ (getP i).tagId), qs := [], body := none }],
          Except.ok (Json.obj [("success", Json.bool true),
            ("tagId", Json.str (getP i).tagId)]))) ∧
    (∀ (env : Env) (baseUrl orgId : String) (getP : Nat → SchemaParams) (i : Nat) (rj : Json),
      env.http { method := "DELETE", baseURL := baseUrl,
                 url := orgUrl orgId ("/schemas/" ++ (getP i).schemaId),
                 qs := [], body := none } = Except.ok rj →
      DocRouterSchema.step env baseUrl orgId getP "delete" i =
        ([{ method := "DELETE", baseURL := baseUrl,
            url := orgUrl orgId ("/schemas/" ++ (getP i).schemaId),
            qs := [], body := none }],
          Except.ok (Json.obj [("success", Json.bool true),
            ("schemaId", Json.str (getP i).schemaId)]))) ∧
    (∀ (env : Env) (baseUrl orgId : String) (getP : Nat → KbParams) (i : Nat) (rj : Json),
      env.http { method := "DELETE", baseURL := baseUrl,
                 url := orgUrl orgId ("/knowledge-bases/" ++ (getP i).kbId),
                 qs := [], body := none } = Except.ok rj →
      DocRouterKnowledgeBase.step env baseUrl orgId getP "delete" i =
        ([{ method := "DELETE", baseURL := baseUrl,
            url := orgUrl orgId ("/knowledge-bases/" ++ (getP i).kbId),
            qs := [], body := none }],
          Except.ok (Json.obj [("success", Json.bool true),
            ("kbId", Json.str (getP i).kbId)]))) ∧
    (∀ (env : Env) (baseUrl orgId : String) (getP : Nat → LlmParams) (i : Nat) (rj : Json),
      (getP i).promptRevid.jsTrim ≠ "" →
      env.http { method := "DELETE", baseURL := baseUrl,
                 url := orgUrl orgId ("/llm/result/" ++ (getP i).documentId),
                 qs := [("prompt_revid", Json.str ((getP i).promptRevid.jsTrim))],
                 body := none } = Except.ok rj →
      DocRouterLLM.step env baseUrl orgId getP "delete" i =
        ([{ method := "DELETE", baseURL := baseUrl,
            url := orgUrl orgId ("/llm/result/" ++ (getP i).documentId),
            qs := [("prompt_revid", Json.str ((getP i).promptRevid.jsTrim))],
            body := none }],
          Except.ok (Json.obj [("success", Json.bool true),
            ("documentId", Json.str (getP i).documentId),
            ("promptRevid", Json.str ((getP i).promptRevid.jsTrim))]))) ∧
    (∀ (env : Env) (baseUrl : String) (getP : Nat → AccountParams) (raw : AccountRaw)
      (i : Nat) (rj : Json),
      env.http { method := "DELETE", baseURL := baseUrl,
                 url := "/v0/account/users/" ++ (getP i).userId.jsTrim,
                 qs := [], body := none } = Except.ok rj →
      DocRouterAccount.step env baseUrl getP raw "deleteUser" i =
        ([{ method := "DELETE", baseURL := baseUrl,
            url := "/v0/account/users/" ++ (getP i).userId.jsTrim,
            qs := [], body := none }],
          Except.ok (Json.obj [("success", Json.bool true),
            ("user_id", Json.str ((getP i).userId.jsTrim))]))) ∧
    (∀ (env : Env) (baseUrl : String) (getP : Nat → AccountParams) (raw : AccountRaw)
      (i : Nat) (rj : Json),
      env.http { method := "DELETE", baseURL := baseUrl,
                 url := "/v0/account/organizations/" ++ (getP i).organizationId.jsTrim,
                 qs := [], body := none } = Except.ok rj →
      DocRouterAccount.step env baseUrl getP raw "deleteOrganization" i =
        ([{ method := "DELETE", baseURL := baseUrl,
            url := "/v0/account/organizations/" ++ (getP i).organizationId.jsTrim,
            qs := [], body := none }],
          Except.ok (Json.obj [("success", Json.bool true),
            ("organization_id", Json.str ((getP i).organizationId.jsTrim))]))) := by
  refine ⟨?_, ?_, ?_, ?_, ?_, ?_, ?_⟩
  · intro env baseUrl orgId getP items i rj hresp
    unfold DocRouterDocument.step
    rw [if_neg (by decide), if_neg (by decide), if_neg (by decide), if_pos rfl]
    unfold httpCall
    rw [hresp]
  · intro env baseUrl orgId getP i rj hresp
    unfold DocRouterTag.step
    rw [if_neg (by decide), if_neg (by decide), if_neg (by decide), if_pos rfl]
    unfold httpCall
    rw [hresp]
  · intro env baseUrl orgId getP i rj hresp
    unfold DocRouterSchema.step
    rw [if_neg (by decide), if_neg (by decide), if_neg (by decide), if_pos rfl]
    unfold httpCall
    rw [hresp]
  · intro env baseUrl orgId getP i rj hresp
    unfold DocRouterKnowledgeBase.step
    rw [if_neg (by decide), if_neg (by decide), if_neg (by decide), if_pos rfl]
    unfold httpCall
    rw [hresp]
  · intro env baseUrl orgId getP i rj hrev hresp
    unfold DocRouterLLM.step
    rw [if_neg (by decide), if_neg (by decide), if_neg (by decide), if_pos rfl, if_neg hrev]
    unfold httpCall
    rw [hresp]
  · intro env baseUrl getP raw i rj hresp
    unfold DocRouterAccount.step
    rw [if_neg (by decide), if_neg (by decide), if_pos rfl]
    unfold httpCall
    rw [hresp]
  · intro env baseUrl getP raw i rj hresp
    unfold DocRouterAccount.step
    rw [if_neg (by decide), if_neg (by decide), if_neg (by decide), if_neg (by decide),
      if_neg (by decide), if_pos rfl]
    unfold httpCall
    rw [hresp]

/-- Witness for C9: against a remote whose delete responses have an empty
(null) body, each delete step returns the synthesized confirmation payload
with the concrete identifier, never an empty object. -/
theorem claimC9_witness :
    (DocRouterDocument.step envNull "B" "org1" (fun _ => docPW) [itemN] "delete" 0).2 =
      Except.ok (Json.obj [("success", Json.bool true), ("documentId", Json.str "D1")]) ∧
    (DocRouterTag.step envNull "B" "org1" (fun _ => tagPW) "delete" 0).2 =
      Except.ok (Json.obj [("success", Json.bool true), ("tagId", Json.str "T1")]) ∧
    (DocRouterSchema.step envNull "B" "org1" (fun _ => schemaPW) "delete" 0).2 =
      Except.ok (Json.obj [("success", Json.bool true), ("schemaId", Json.str "S1")]) ∧
    (DocRouterKnowledgeBase.step envNull "B" "org1" (fun _ => kbPW) "delete" 0).2 =
      Except.ok (Json.obj [("success", Json.bool true), ("kbId", Json.str "K1")]) ∧
    (DocRouterLLM.step envNull "B" "org1" (fun _ => llmPW) "delete" 0).2 =
      Except.ok (Json.obj [("success", Json.bool true), ("documentId", Json.str "D1"),
        ("promptRevid", Json.str "default")]) ∧
    (DocRouterAccount.step envNull "B" (fun _ => accPW) accRawW "deleteUser" 0).2 =
      Except.ok (Json.obj [("success", Json.bool true), ("user_id", Json.str "U1")]) ∧
    (DocRouterAccount.step envNull "B" (fun _ => accPW) accRawW "deleteOrganization" 0).2 =
      Except.ok (Json.obj [("success", Json.bool true),
        ("organization_id", Json.str "O1")]) := by
  refine ⟨?_, ?_, ?_, ?_, ?_, ?_, ?_⟩
  · have h := claimC9_delete_payload.1 envNull "B" "org1" (fun _ => docPW) [itemN] 0
      Json.null rfl
    rw [h]
    rfl
  · have h := claimC9_delete_payload.2.1 envNull "B" "org1" (fun _ => tagPW) 0 Json.null rfl
    rw [h]
    rfl
  · have h := claimC9_delete_payload.2.2.1 envNull "B" "org1" (fun _ => schemaPW) 0
      Json.null rfl
    rw [h]
    rfl
  · have h := claimC9_delete_payload.2.2.2.1 envNull "B" "org1" (fun _ => kbPW) 0
      Json.null rfl
    rw [h]
    rfl
  · have h := claimC9_delete_payload.2.2.2.2.1 envNull "B" "org1" (fun _ => llmPW) 0
      Json.null (by decide) rfl
    rw [h]
    rfl
  · have h := claimC9_delete_payload.2.2.2.2.2.1 envNull "B" (fun _ => accPW) accRawW 0
      Json.null rfl
    rw [h]
    rfl
  · have h := claimC9_delete_payload.2.2.2.2.2.2 envNull "B" (fun _ => accPW) accRawW 0
      Json.null rfl
    rw [h]
    rfl

/-- C10 (confirmed): the uploaded document name is the trimmed Document Name
parameter when non-empty after trimming, else the binary attachment's
non-empty file name, else the literal `document` (a present-but-empty file
name counts as absent, exactly the JS falsiness chain); the outbound name is
never the empty string, and the upload bodies of both upload nodes carry
exactly this resolved name. -/
theorem claimC10_document_name :
    (∀ (param : String) (f : Option String),
      param.jsTrim ≠ "" → resolveDocumentName param f = param.jsTrim) ∧
    (∀ (param : String) (f : Option String) (s : String),
      param.jsTrim = "" → f = some s → s ≠ "" → resolveDocumentName param f = s) ∧
    (∀ (param : String) (f : Option String),
      param.jsTrim = "" → (f = none ∨ f = some "") →
      resolveDocumentName param f = "document") ∧
    (∀ (param : String) (f : Option String), resolveDocumentName param f ≠ "") ∧
    (∀ (env : Env) (baseUrl orgId : String) (getP : Nat → DocParams)
      (items : List ItemInput) (i : Nat) (b : BinaryData) (md : Json),
      binaryOf items i (getP i).binaryPropertyName = some b →
      (getP i).metadata = JsParam.obj md →
      (DocRouterDocument.step env baseUrl orgId getP items "upload" i).1 =
        [{ method := "POST", baseURL := baseUrl, url := orgUrl orgId "/documents", qs := [],
            body := some (docUploadBody
              (resolveDocumentName (getP i).documentName b.fileName) b.dataB64
              (normalizeTagIds (getP i).tagIds) md) }]) ∧
    (∀ (env : Env) (baseUrl : String) (p : DcrParams) (items : List ItemInput)
      (i : Nat) (b : BinaryData) (md : Json),
      binaryOf items i p.binaryPropertyName = some b →
      p.metadata = JsParam.obj md →
      (DocRouter.step env baseUrl p items i).1 =
        [{ method := "POST", baseURL := baseUrl,
            url := orgUrl p.organizationId "/documents", qs := [],
            body := some (docUploadBody
              (resolveDocumentName p.documentName b.fileName) b.dataB64
              (normalizeTagIds p.tagIds) md) }]) := by
  refine ⟨?_, ?_, ?_, ?_, ?_, ?_⟩
  · intro param f h
    unfold resolveDocumentName strOr
    rw [if_neg h]
  · intro param f s h1 h2 h3
    unfold resolveDocumentName strOr
    rw [if_pos h1, h2]
    simp [h3]
  · intro param f h1 h2
    unfold resolveDocumentName strOr
    rw [if_pos h1]
    rcases h2 with h2 | h2 <;> rw [h2] <;> simp
  · intro param f
    unfold resolveDocumentName strOr
    by_cases h1 : param.jsTrim = ""
    · rw [if_pos h1]
      by_cases h2 : f.getD "" = ""
      · rw [if_pos h2]
        decide
      · rw [if_neg h2]
        exact h2
    · rw [if_neg h1]
      exact h1
  · intro env baseUrl orgId getP items i b md hb hm
    simp [DocRouterDocument.step, parseJsParam, httpCall, hb, hm]
  · intro env baseUrl p items i b md hb hm
    simp [DocRouter.step, parseJsParam, httpCall, hb, hm]

/-- Witness for C10: the three fallback cases at concrete values, the
non-emptiness at the worst case, and the two upload steps embedding the
resolved name (here the binary file name) in the request body. -/
theorem claimC10_witness :
    resolveDocumentName " N " (some "f.pdf") = "N" ∧
    resolveDocumentName "" (some "f.pdf") = "f.pdf" ∧
    resolveDocumentName " " (some "") = "document" ∧
    resolveDocumentName "" none ≠ "" ∧
    (DocRouterDocument.step (envW false) "B" "org1" (fun _ => docPW) [itemB] "upload" 0).1 =
      [{ method := "POST", baseURL := "B", url := orgUrl "org1" "/documents", qs := [],
          body := some (docUploadBody "f.pdf" "QUJD" [] (Json.obj [])) }] ∧
    (DocRouter.step (envW false) "B" dcrPW [itemB] 0).1 =
      [{ method := "POST", baseURL := "B", url := orgUrl "org1" "/documents", qs := [],
          body := some (docUploadBody "f.pdf" "QUJD" [] (Json.obj [])) }] :=
  ⟨claimC10_document_name.1 " N " (some "f.pdf") (by decide),
    claimC10_document_name.2.1 "" (some "f.pdf") "f.pdf" rfl rfl (by decide),
    claimC10_document_name.2.2.1 " " (some "") (by decide) (Or.inr rfl),
    claimC10_document_name.2.2.2.1 "" none,
    claimC10_document_name.2.2.2.2.1 (envW false) "B" "org1" (fun _ => docPW) [itemB] 0
      { fileName := some "f.pdf", dataB64 := "QUJD" } (Json.obj []) rfl rfl,
    claimC10_document_name.2.2.2.2.2 (envW false) "B" dcrPW [itemB] 0
      { fileName := some "f.pdf", dataB64 := "QUJD" } (Json.obj []) rfl rfl⟩
